import Mathlib

/-!
Shallow embedding of the Workshop-ML-LLM-Server repository.

`src/app.py` is a FastAPI CRUD service over six relational tables
(departments, employees, suppliers, purchase_orders, invoices, payments);
`src/mcp_server.py` is a tool gateway forwarding each operation over HTTP.
The embedding below models each HTTP handler of `app.py` as a pure function
from a database state to `Except ApiError (result × state)`.  The relational
store's behaviour (SERIAL ids, uniqueness constraints, ON DELETE
RESTRICT / SET NULL / CASCADE as declared in the SQLAlchemy models and in
`src/database-server/seed_table.py`) is folded into the handler functions,
since each handler runs as one transaction: on any error the transaction
rolls back and the state is unchanged.

Timestamps (`created_at`) are assigned by the store and never read by any
code path modelled here, so they are omitted from the record types.
Monetary fields are `Int` (Python ints), ids are `Nat` (SERIAL counters).
Date-valued columns are kept as the strings the payloads carry; no handler
in `app.py` inspects them.
-/

/-- Invoice statuses, the literal set of the `inv_status_check` constraint
and of the pydantic pattern on `InvoiceCreate.status`. -/
inductive InvStatus where
  | OPEN
  | PAID
  | CANCELLED
  | OVERDUE
deriving Repr, DecidableEq

/-- Purchase-order statuses (`po_status_check`). -/
inductive POStatus where
  | DRAFT
  | APPROVED
  | SENT
  | RECEIVED
  | CANCELLED
deriving Repr, DecidableEq

/-- Payment methods (`pay_method_check`). -/
inductive PayMethod where
  | PIX
  | TED
  | BOLETO
  | CREDIT_CARD
  | CASH
deriving Repr, DecidableEq

/-- Stored row of the `departments` table. -/
structure Department where
  id : Nat
  name : String
  cost_center : String
deriving Repr, DecidableEq

/-- Stored row of the `employees` table. -/
structure Employee where
  id : Nat
  department_id : Nat
  full_name : String
  email : String
  role : String
  salary_cents : Int
  hired_on : String
  active : Bool
deriving Repr, DecidableEq

/-- Stored row of the `suppliers` table. -/
structure Supplier where
  id : Nat
  name : String
  tax_id : String
  email : Option String
  phone : Option String
deriving Repr, DecidableEq

/-- Stored row of the `purchase_orders` table. -/
structure PurchaseOrder where
  id : Nat
  supplier_id : Nat
  requested_by : Nat
  department_id : Nat
  status : POStatus
  total_cents : Int
deriving Repr, DecidableEq

/-- Stored row of the `invoices` table. -/
structure Invoice where
  id : Nat
  supplier_id : Nat
  po_id : Option Nat
  invoice_no : String
  issued_on : String
  due_on : String
  amount_cents : Int
  status : InvStatus
deriving Repr, DecidableEq

/-- Stored row of the `payments` table. -/
structure Payment where
  id : Nat
  invoice_id : Nat
  paid_on : String
  amount_cents : Int
  method : PayMethod
  reference : Option String
deriving Repr, DecidableEq

/-- The whole relational store, one list per table plus the SERIAL
counter of each table's primary key. -/
structure DBState where
  departments : List Department
  employees : List Employee
  suppliers : List Supplier
  purchase_orders : List PurchaseOrder
  invoices : List Invoice
  payments : List Payment
  next_department_id : Nat
  next_employee_id : Nat
  next_supplier_id : Nat
  next_po_id : Nat
  next_invoice_id : Nat
  next_payment_id : Nat
deriving Repr, DecidableEq

/-- The empty store: `seed_table.py` creates the six tables with SERIAL
primary keys, which start at 1. -/
def initState : DBState :=
  { departments := [], employees := [], suppliers := [], purchase_orders := []
    invoices := [], payments := []
    next_department_id := 1, next_employee_id := 1, next_supplier_id := 1
    next_po_id := 1, next_invoice_id := 1, next_payment_id := 1 }

/-- Errors a request can surface.  `http s d` is a raised
`HTTPException(s, detail=d)`; `validationErr` is the framework-level 422 a
pydantic `Field` constraint produces before the handler runs; `storeErr` is
an exception from `db.commit()` that no handler code catches, propagating
as a generic 500-equivalent failure. -/
inductive ApiError where
  | validationErr
  | http (status : Nat) (detail : String)
  | storeErr
deriving Repr, DecidableEq

/-- An `ApiError` is a handler-raised HTTP error (as opposed to the
generic uncaught store failure or framework validation). -/
def ApiError.isHandlerRaised : ApiError → Bool
  | .http _ _ => true
  | _ => false

/-- Payload of `POST /departments` (`DepartmentCreate`). -/
structure DepartmentCreate where
  name : String
  cost_center : String
deriving Repr, DecidableEq

/-- Payload of `POST /employees` (`EmployeeCreate`). -/
structure EmployeeCreate where
  department_id : Nat
  full_name : String
  email : String
  role : String
  salary_cents : Int
  hired_on : String
  active : Bool
deriving Repr, DecidableEq

/-- Payload of `POST /suppliers` (`SupplierCreate`). -/
structure SupplierCreate where
  name : String
  tax_id : String
  email : Option String
  phone : Option String
deriving Repr, DecidableEq

/-- Payload of `POST /purchase-orders` (`POCreate`); the status pattern of
the pydantic model is reflected by the `POStatus` type. -/
structure POCreate where
  supplier_id : Nat
  requested_by : Nat
  department_id : Nat
  status : POStatus
  total_cents : Int
deriving Repr, DecidableEq

/-- Payload of `POST /invoices` (`InvoiceCreate`). -/
structure InvoiceCreate where
  supplier_id : Nat
  po_id : Option Nat
  invoice_no : String
  issued_on : String
  due_on : String
  amount_cents : Int
  status : InvStatus
deriving Repr, DecidableEq

/-- Payload of `POST /payments` (`PaymentCreate`). -/
structure PaymentCreate where
  invoice_id : Nat
  paid_on : String
  amount_cents : Int
  method : PayMethod
  reference : Option String
deriving Repr, DecidableEq

/-- Handler of `POST /departments`: pydantic requires both strings to have
at least 2 characters; a commit failing the `name` / `cost_center`
uniqueness constraints is caught and mapped to a 400. -/
def create_department (st : DBState) (p : DepartmentCreate) :
    Except ApiError (Department × DBState) :=
  if p.name.length < 2 || p.cost_center.length < 2 then
    .error .validationErr
  else if st.departments.any (fun d => d.name == p.name || d.cost_center == p.cost_center) then
    .error (.http 400 "Departamento já existe ou dados inválidos.")
  else
    let obj : Department :=
      { id := st.next_department_id, name := p.name, cost_center := p.cost_center }
    .ok (obj, { st with departments := st.departments ++ [obj],
                        next_department_id := st.next_department_id + 1 })

/-- Handler of `POST /employees`: pydantic requires `salary_cents ≥ 0`;
the handler checks the `department_id` foreign key with `db.get` and maps
a commit failure (the `email` uniqueness constraint) to a 400. -/
def create_employee (st : DBState) (p : EmployeeCreate) :
    Except ApiError (Employee × DBState) :=
  if p.salary_cents < 0 then
    .error .validationErr
  else if (st.departments.find? (fun d => d.id == p.department_id)).isNone then
    .error (.http 400 "department_id inválido.")
  else if st.employees.any (fun e => e.email == p.email) then
    .error (.http 400 "Email já existe ou dados inválidos.")
  else
    let obj : Employee :=
      { id := st.next_employee_id, department_id := p.department_id
        full_name := p.full_name, email := p.email, role := p.role
        salary_cents := p.salary_cents, hired_on := p.hired_on, active := p.active }
    .ok (obj, { st with employees := st.employees ++ [obj],
                        next_employee_id := st.next_employee_id + 1 })

/-- Handler of `POST /suppliers`: a commit failing the `name` / `tax_id`
uniqueness constraints is caught and mapped to a 400. -/
def create_supplier (st : DBState) (p : SupplierCreate) :
    Except ApiError (Supplier × DBState) :=
  if st.suppliers.any (fun s => s.name == p.name || s.tax_id == p.tax_id) then
    .error (.http 400 "Fornecedor já existe (tax_id) ou dados inválidos.")
  else
    let obj : Supplier :=
      { id := st.next_supplier_id, name := p.name, tax_id := p.tax_id
        email := p.email, phone := p.phone }
    .ok (obj, { st with suppliers := st.suppliers ++ [obj],
                        next_supplier_id := st.next_supplier_id + 1 })

/-- Handler of `POST /purchase-orders`: pydantic requires
`total_cents ≥ 0`; the handler checks the three foreign keys in order with
`db.get` before inserting.  No uniqueness constraint exists on the table,
so the (uncaught) commit succeeds. -/
def create_po (st : DBState) (p : POCreate) :
    Except ApiError (PurchaseOrder × DBState) :=
  if p.total_cents < 0 then
    .error .validationErr
  else if (st.suppliers.find? (fun s => s.id == p.supplier_id)).isNone then
    .error (.http 400 "supplier_id inválido.")
  else if (st.employees.find? (fun e => e.id == p.requested_by)).isNone then
    .error (.http 400 "requested_by inválido.")
  else if (st.departments.find? (fun d => d.id == p.department_id)).isNone then
    .error (.http 400 "department_id inválido.")
  else
    let obj : PurchaseOrder :=
      { id := st.next_po_id, supplier_id := p.supplier_id
        requested_by := p.requested_by, department_id := p.department_id
        status := p.status, total_cents := p.total_cents }
    .ok (obj, { st with purchase_orders := st.purchase_orders ++ [obj],
                        next_po_id := st.next_po_id + 1 })

/-- Handler of `POST /invoices`: pydantic requires `amount_cents ≥ 0`; the
handler checks `supplier_id` and, when present, `po_id` with `db.get`, and
maps a commit failure (the `(supplier_id, invoice_no)` uniqueness
constraint) to a 400.  The payload's `status` is stored as given. -/
def create_invoice (st : DBState) (p : InvoiceCreate) :
    Except ApiError (Invoice × DBState) :=
  if p.amount_cents < 0 then
    .error .validationErr
  else if (st.suppliers.find? (fun s => s.id == p.supplier_id)).isNone then
    .error (.http 400 "supplier_id inválido.")
  else if (match p.po_id with
           | some pid => (st.purchase_orders.find? (fun o => o.id == pid)).isNone
           | none => false : Bool) then
    .error (.http 400 "po_id inválido.")
  else if st.invoices.any
      (fun v => v.supplier_id == p.supplier_id && v.invoice_no == p.invoice_no) then
    .error (.http 400 "invoice_no duplicada para esse fornecedor ou dados inválidos.")
  else
    let obj : Invoice :=
      { id := st.next_invoice_id, supplier_id := p.supplier_id, po_id := p.po_id
        invoice_no := p.invoice_no, issued_on := p.issued_on, due_on := p.due_on
        amount_cents := p.amount_cents, status := p.status }
    .ok (obj, { st with invoices := st.invoices ++ [obj],
                        next_invoice_id := st.next_invoice_id + 1 })

/-- Sum of `amount_cents` over the stored payments whose `invoice_id`
equals `invId` — the aggregate the settlement query computes with
`func.coalesce(func.sum(Payment.amount_cents), 0)`. -/
def paymentSum (payments : List Payment) (invId : Nat) : Int :=
  ((payments.filter (fun p => p.invoice_id == invId)).map (fun p => p.amount_cents)).sum

/-- Handler of `POST /payments`: pydantic requires `amount_cents > 0`; the
handler checks the `invoice_id` foreign key, inserts and commits the
payment, then recomputes the durable payment sum of the invoice and, when
the sum reaches `amount_cents` and the status is not already `PAID`, sets
the status to `PAID` (second commit). -/
def create_payment (st : DBState) (p : PaymentCreate) :
    Except ApiError (Payment × DBState) :=
  if p.amount_cents ≤ 0 then
    .error .validationErr
  else
    match st.invoices.find? (fun v => v.id == p.invoice_id) with
    | none => .error (.http 400 "invoice_id inválido.")
    | some inv =>
      let obj : Payment :=
        { id := st.next_payment_id, invoice_id := p.invoice_id, paid_on := p.paid_on
          amount_cents := p.amount_cents, method := p.method, reference := p.reference }
      let st1 : DBState :=
        { st with payments := st.payments ++ [obj],
                  next_payment_id := st.next_payment_id + 1 }
      let total_paid := paymentSum st1.payments inv.id
      if inv.amount_cents ≤ total_paid && inv.status != .PAID then
        let settled := st1.invoices.map
          (fun v => if v.id == inv.id then { v with status := .PAID } else v)
        .ok (obj, { st1 with invoices := settled })
      else
        .ok (obj, st1)

/-- Handler of `DELETE /departments/{id}`: 404 when absent; otherwise the
code issues the delete and commits with no exception handler, so when an
employee or purchase order still references the department the store's
RESTRICT constraint makes the commit raise and the error propagates
uncaught (`storeErr`). -/
def delete_department (st : DBState) (dept_id : Nat) : Except ApiError DBState :=
  if (st.departments.find? (fun d => d.id == dept_id)).isNone then
    .error (.http 404 "Departamento não encontrado.")
  else if st.employees.any (fun e => e.department_id == dept_id)
       || st.purchase_orders.any (fun o => o.department_id == dept_id) then
    .error .storeErr
  else
    .ok { st with departments := st.departments.filter (fun d => d.id != dept_id) }

/-- Handler of `DELETE /employees/{id}`: 404 when absent; a purchase order
referencing the employee (`requested_by`, RESTRICT) makes the uncaught
commit fail. -/
def delete_employee (st : DBState) (emp_id : Nat) : Except ApiError DBState :=
  if (st.employees.find? (fun e => e.id == emp_id)).isNone then
    .error (.http 404 "Funcionário não encontrado.")
  else if st.purchase_orders.any (fun o => o.requested_by == emp_id) then
    .error .storeErr
  else
    .ok { st with employees := st.employees.filter (fun e => e.id != emp_id) }

/-- Handler of `DELETE /suppliers/{id}`: 404 when absent; a purchase order
or invoice referencing the supplier (RESTRICT) makes the uncaught commit
fail. -/
def delete_supplier (st : DBState) (supplier_id : Nat) : Except ApiError DBState :=
  if (st.suppliers.find? (fun s => s.id == supplier_id)).isNone then
    .error (.http 404 "Fornecedor não encontrado.")
  else if st.purchase_orders.any (fun o => o.supplier_id == supplier_id)
       || st.invoices.any (fun v => v.supplier_id == supplier_id) then
    .error .storeErr
  else
    .ok { st with suppliers := st.suppliers.filter (fun s => s.id != supplier_id) }

/-- Handler of `DELETE /purchase-orders/{id}`: 404 when absent; otherwise
the delete succeeds and the store's `ON DELETE SET NULL` on
`invoices.po_id` nulls the reference of every invoice pointing at the
deleted purchase order. -/
def delete_po (st : DBState) (po_id : Nat) : Except ApiError DBState :=
  if (st.purchase_orders.find? (fun o => o.id == po_id)).isNone then
    .error (.http 404 "PO não encontrado.")
  else
    .ok { st with
      purchase_orders := st.purchase_orders.filter (fun o => o.id != po_id)
      invoices := st.invoices.map
        (fun v => if v.po_id == some po_id then { v with po_id := none } else v) }

/-- Handler of `DELETE /invoices/{id}`: 404 when absent; otherwise the
delete succeeds and the store's `ON DELETE CASCADE` on
`payments.invoice_id` removes the invoice's payments. -/
def delete_invoice (st : DBState) (invoice_id : Nat) : Except ApiError DBState :=
  if (st.invoices.find? (fun v => v.id == invoice_id)).isNone then
    .error (.http 404 "Fatura não encontrada.")
  else
    .ok { st with
      invoices := st.invoices.filter (fun v => v.id != invoice_id)
      payments := st.payments.filter (fun p => p.invoice_id != invoice_id) }

/-- Handler of `DELETE /payments/{id}`: 404 when absent; otherwise the
payment row is deleted (nothing references payments) and the invoice is
not touched — no settlement recomputation happens on this path. -/
def delete_payment (st : DBState) (payment_id : Nat) : Except ApiError DBState :=
  if (st.payments.find? (fun p => p.id == payment_id)).isNone then
    .error (.http 404 "Pagamento não encontrado.")
  else
    .ok { st with payments := st.payments.filter (fun p => p.id != payment_id) }

/-- Results of a `GET` list endpoint are produced by `ORDER BY id` plus
`OFFSET` / `LIMIT`; the `ORDER BY` is modelled by an insertion sort on the
primary key. -/
def sortById {α : Type} (idOf : α → Nat) (l : List α) : List α :=
  List.insertionSort (fun a b => idOf a ≤ idOf b) l

/-- Offset/limit pagination applied after the `ORDER BY id`. -/
def paginate {α : Type} (idOf : α → Nat) (l : List α) (limit offset : Nat) : List α :=
  ((sortById idOf l).drop offset).take limit

/-- Stored string of a purchase-order status (the `TEXT` column value). -/
def POStatus.text : POStatus → String
  | .DRAFT => "DRAFT"
  | .APPROVED => "APPROVED"
  | .SENT => "SENT"
  | .RECEIVED => "RECEIVED"
  | .CANCELLED => "CANCELLED"

/-- Stored string of an invoice status (the `TEXT` column value). -/
def InvStatus.text : InvStatus → String
  | .OPEN => "OPEN"
  | .PAID => "PAID"
  | .CANCELLED => "CANCELLED"
  | .OVERDUE => "OVERDUE"

/-- Handler of `GET /departments`. -/
def list_departments (st : DBState) (limit offset : Nat) : List Department :=
  paginate (fun d => d.id) st.departments limit offset

/-- Handler of `GET /employees`: optional exact-match filters on
`department_id` (`is not None` check) and `active` (`is not None`
check). -/
def list_employees (st : DBState) (limit offset : Nat)
    (department_id : Option Nat) (active : Option Bool) : List Employee :=
  let q := st.employees
  let q := match department_id with
    | some d => q.filter (fun e => e.department_id == d)
    | none => q
  let q := match active with
    | some a => q.filter (fun e => e.active == a)
    | none => q
  paginate (fun e => e.id) q limit offset

/-- Handler of `GET /suppliers`. -/
def list_suppliers (st : DBState) (limit offset : Nat) : List Supplier :=
  paginate (fun s => s.id) st.suppliers limit offset

/-- Handler of `GET /purchase-orders`: the `status` filter is guarded by a
Python truthiness check (`if status:`), so an empty string is dropped like
`None`. -/
def list_pos (st : DBState) (limit offset : Nat) (status : Option String) :
    List PurchaseOrder :=
  let q := match status with
    | some s =>
      if s != "" then st.purchase_orders.filter (fun o => o.status.text == s)
      else st.purchase_orders
    | none => st.purchase_orders
  paginate (fun o => o.id) q limit offset

/-- Handler of `GET /invoices`: truthiness-guarded `status` filter and
`is not None`-guarded `supplier_id` filter. -/
def list_invoices (st : DBState) (limit offset : Nat)
    (status : Option String) (supplier_id : Option Nat) : List Invoice :=
  let q := match status with
    | some s =>
      if s != "" then st.invoices.filter (fun v => v.status.text == s)
      else st.invoices
    | none => st.invoices
  let q := match supplier_id with
    | some sid => q.filter (fun v => v.supplier_id == sid)
    | none => q
  paginate (fun v => v.id) q limit offset

/-- Handler of `GET /payments`: `is not None`-guarded `invoice_id`
filter. -/
def list_payments (st : DBState) (limit offset : Nat) (invoice_id : Option Nat) :
    List Payment :=
  let q := match invoice_id with
    | some i => st.payments.filter (fun p => p.invoice_id == i)
    | none => st.payments
  paginate (fun p => p.id) q limit offset

/-- One state-mutating request of the HTTP surface.  The `GET` endpoints
only read the store, so the reachable states are generated by these
twelve operations. -/
inductive Op where
  | opCreateDepartment (p : DepartmentCreate)
  | opCreateEmployee (p : EmployeeCreate)
  | opCreateSupplier (p : SupplierCreate)
  | opCreatePO (p : POCreate)
  | opCreateInvoice (p : InvoiceCreate)
  | opCreatePayment (p : PaymentCreate)
  | opDeleteDepartment (i : Nat)
  | opDeleteEmployee (i : Nat)
  | opDeleteSupplier (i : Nat)
  | opDeletePO (i : Nat)
  | opDeleteInvoice (i : Nat)
  | opDeletePayment (i : Nat)
deriving Repr, DecidableEq

/-- Dispatch an operation to its handler, keeping only the resulting
state. -/
def applyOp (st : DBState) : Op → Except ApiError DBState
  | .opCreateDepartment p => (create_department st p).map (fun r => r.2)
  | .opCreateEmployee p => (create_employee st p).map (fun r => r.2)
  | .opCreateSupplier p => (create_supplier st p).map (fun r => r.2)
  | .opCreatePO p => (create_po st p).map (fun r => r.2)
  | .opCreateInvoice p => (create_invoice st p).map (fun r => r.2)
  | .opCreatePayment p => (create_payment st p).map (fun r => r.2)
  | .opDeleteDepartment i => delete_department st i
  | .opDeleteEmployee i => delete_employee st i
  | .opDeleteSupplier i => delete_supplier st i
  | .opDeletePO i => delete_po st i
  | .opDeleteInvoice i => delete_invoice st i
  | .opDeletePayment i => delete_payment st i

/-- Run one request against the store: a failed request rolls back its
transaction, so the state is unchanged. -/
def runOp (st : DBState) (op : Op) : DBState :=
  match applyOp st op with
  | .ok st' => st'
  | .error _ => st

/-- Run a sequence of requests. -/
def runOps (st : DBState) (ops : List Op) : DBState :=
  ops.foldl runOp st

/-- Structural well-formedness the store guarantees: invoice primary keys
are below the SERIAL counter and pairwise distinct, and every stored
payment satisfies the `pay_amount_check` constraint
(`amount_cents > 0`). -/
def WF (st : DBState) : Prop :=
  (∀ v ∈ st.invoices, v.id < st.next_invoice_id) ∧
  st.invoices.Pairwise (fun a b => a.id ≠ b.id) ∧
  (∀ q ∈ st.payments, 0 < q.amount_cents)

/-- The settlement invariant of the specification: a `PAID` invoice has
accumulated payments worth at least its `amount_cents`. -/
def InvariantPaid (st : DBState) : Prop :=
  ∀ v ∈ st.invoices, v.status = .PAID → v.amount_cents ≤ paymentSum st.payments v.id

/-- Operations under which the settlement invariant is actually
preserved: everything except deleting a payment and except creating an
invoice directly in the `PAID` status. -/
def GoodOp : Op → Bool
  | .opCreateInvoice p => p.status != .PAID
  | .opDeletePayment _ => false
  | _ => true

/-! ### Tool gateway (`src/mcp_server.py`) -/

/-- Whitespace in the sense of Python's `str.strip()` (ASCII subset;
no input modelled here carries exotic Unicode whitespace). -/
def pyIsSpace (c : Char) : Bool :=
  c = ' ' || c = '\t' || c = '\n' || c = '\r'

/-- Python `value.strip()`. -/
def pyStrip (s : String) : String :=
  String.mk (((s.data.dropWhile pyIsSpace).reverse.dropWhile pyIsSpace).reverse)

/-- Python `s.replace("Z", "+00:00")` — the pattern is the single
character `Z`, replaced everywhere. -/
def pyReplaceZ (s : String) : String :=
  String.mk (s.data.flatMap (fun c => if c = 'Z' then "+00:00".data else [c]))

/-- Split a character list at every occurrence of `sep` (Python
`str.split(sep)` semantics: `n` separators produce `n+1` groups). -/
def splitOnChar (sep : Char) : List Char → List (List Char)
  | [] => [[]]
  | c :: cs =>
    let r := splitOnChar sep cs
    if c = sep then [] :: r
    else
      match r with
      | [] => [[c]]
      | g :: gs => (c :: g) :: gs

/-- Numeric value of a digit string (only applied after an all-digit
check). -/
def digitsVal (cs : List Char) : Nat :=
  cs.foldl (fun a c => a * 10 + (c.toNat - 48)) 0

/-- Exactly two digits whose value is at most `bound`. -/
def twoDigitsLE (cs : List Char) (bound : Nat) : Bool :=
  cs.length == 2 && cs.all Char.isDigit && digitsVal cs ≤ bound

/-- Gregorian leap year, as Python's `datetime.date` validates it. -/
def isLeapYear (y : Nat) : Bool :=
  y % 4 == 0 && (y % 100 != 0 || y % 400 == 0)

/-- Number of days of month `m` in year `y`. -/
def daysInMonth (y m : Nat) : Nat :=
  if m == 2 then (if isLeapYear y then 29 else 28)
  else if m == 4 || m == 6 || m == 9 || m == 11 then 30
  else 31

/-- A Python `datetime.date` value. -/
structure PyDate where
  year : Nat
  month : Nat
  day : Nat
deriving Repr, DecidableEq

/-- Two decimal digits, zero padded. -/
def pad2 (n : Nat) : List Char :=
  [Char.ofNat (48 + n / 10 % 10), Char.ofNat (48 + n % 10)]

/-- Four decimal digits, zero padded. -/
def pad4 (n : Nat) : List Char :=
  [Char.ofNat (48 + n / 1000 % 10), Char.ofNat (48 + n / 100 % 10),
   Char.ofNat (48 + n / 10 % 10), Char.ofNat (48 + n % 10)]

/-- Python `date.isoformat()`: `YYYY-MM-DD`. -/
def PyDate.isoformat (d : PyDate) : String :=
  String.mk (pad4 d.year ++ ['-'] ++ pad2 d.month ++ ['-'] ++ pad2 d.day)

/-- Python `date.fromisoformat` on its documented `YYYY-MM-DD` form:
four digits, dash, two digits, dash, two digits, with a calendar-valid
month and day. -/
def parseIsoDate (cs : List Char) : Option PyDate :=
  match splitOnChar '-' cs with
  | [y, m, d] =>
    if y.length == 4 && y.all Char.isDigit && m.length == 2 && m.all Char.isDigit
        && d.length == 2 && d.all Char.isDigit then
      let yy := digitsVal y
      let mm := digitsVal m
      let dd := digitsVal d
      if 1 ≤ yy && 1 ≤ mm && mm ≤ 12 && 1 ≤ dd && dd ≤ daysInMonth yy mm then
        some ⟨yy, mm, dd⟩
      else none
    else none
  | _ => none

/-- Split a time string at the first `+` or `-`, separating the clock
part from a possible UTC-offset suffix. -/
def breakAtSign : List Char → List Char × List Char
  | [] => ([], [])
  | c :: cs =>
    if c = '+' || c = '-' then ([], c :: cs)
    else
      let r := breakAtSign cs
      (c :: r.1, r.2)

/-- Validity of the clock part `HH:MM[:SS[.ffffff]]` (the standard forms
`datetime.fromisoformat` accepts). -/
def validClock (cs : List Char) : Bool :=
  match splitOnChar ':' cs with
  | [hh, mm] => twoDigitsLE hh 23 && twoDigitsLE mm 59
  | [hh, mm, ssf] =>
    (match splitOnChar '.' ssf with
     | [ss] => twoDigitsLE hh 23 && twoDigitsLE mm 59 && twoDigitsLE ss 59
     | [ss, frac] => twoDigitsLE hh 23 && twoDigitsLE mm 59 && twoDigitsLE ss 59
         && decide (1 ≤ frac.length) && decide (frac.length ≤ 6) && frac.all Char.isDigit
     | _ => false)
  | _ => false

/-- Validity of a UTC-offset suffix `±HH:MM[:SS]`. -/
def validOffset (cs : List Char) : Bool :=
  match cs with
  | [] => false
  | _sign :: rest =>
    match splitOnChar ':' rest with
    | [hh, mm] => twoDigitsLE hh 23 && twoDigitsLE mm 59
    | [hh, mm, ss] => twoDigitsLE hh 23 && twoDigitsLE mm 59 && twoDigitsLE ss 59
    | _ => false

/-- Validity of a full time-of-day component, optionally followed by a
UTC offset. -/
def validTime (cs : List Char) : Bool :=
  let r := breakAtSign cs
  validClock r.1 && (r.2.isEmpty || validOffset r.2)

/-- Python `datetime.fromisoformat(...).date()` on the standard
`YYYY-MM-DD[<sep>HH:MM[:SS[.ffffff]][±HH:MM[:SS]]]` forms: the calendar
date part of the string when the whole string is a valid ISO datetime,
`none` otherwise.  The `.date()` projection never shifts the calendar
date, whatever the offset. -/
def parseIsoDatetime (s : String) : Option PyDate :=
  match parseIsoDate (s.data.take 10) with
  | none => none
  | some d =>
    match s.data.drop 10 with
    | [] => some d
    | _sep :: timecs => if validTime timecs then some d else none

/-- The `_normalize_hired_on` helper of `mcp_server.py`: strip the value;
an empty result passes through; a string containing `T` is parsed as an
ISO datetime (after `Z` → `+00:00`) and truncated to its date part; any
other string is parsed and re-serialised as an ISO date; every parse
failure returns the original value unchanged. -/
def normalize_hired_on (value : String) : String :=
  let s := pyStrip value
  if s = "" then value
  else if s.data.contains 'T' then
    match parseIsoDatetime (pyReplaceZ s) with
    | some d => d.isoformat
    | none => value
  else
    match parseIsoDate s.data with
    | some d => d.isoformat
    | none => value

/-- Body the `create_employee` tool forwards to `POST /employees`: the
only field that is transformed is `hired_on`, through
`_normalize_hired_on`. -/
def mcp_create_employee_body (department_id : Nat) (full_name email role : String)
    (salary_cents : Int) (hired_on : String) (active : Bool) : EmployeeCreate :=
  { department_id := department_id, full_name := full_name, email := email
    role := role, salary_cents := salary_cents
    hired_on := normalize_hired_on hired_on, active := active }

/-- Body the `create_invoice` tool forwards to `POST /invoices`: every
field, the two date strings included, is forwarded exactly as given. -/
def mcp_create_invoice_body (supplier_id : Nat) (invoice_no issued_on due_on : String)
    (amount_cents : Int) (status : InvStatus) (po_id : Option Nat) : InvoiceCreate :=
  { supplier_id := supplier_id, po_id := po_id, invoice_no := invoice_no
    issued_on := issued_on, due_on := due_on
    amount_cents := amount_cents, status := status }

/-- Body the `create_payment` tool forwards to `POST /payments`: every
field, `paid_on` included, is forwarded exactly as given. -/
def mcp_create_payment_body (invoice_id : Nat) (paid_on : String) (amount_cents : Int)
    (method : PayMethod) (reference : Option String) : PaymentCreate :=
  { invoice_id := invoice_id, paid_on := paid_on, amount_cents := amount_cents
    method := method, reference := reference }

/-- Python truthiness of an `Optional[int]`: `None` and `0` are falsy. -/
def pyTruthyNat : Option Nat → Bool
  | none => false
  | some n => n != 0

/-- Query filter the `list_employees` tool forwards: the tool adds
`department_id` to the params dict only under `if department_id:`, a
truthiness check. -/
def mcp_list_employees_forwarded_filter (department_id : Option Nat) : Option Nat :=
  if pyTruthyNat department_id then department_id else none

/-- End-to-end result of the `list_employees` tool: the API serves the
forwarded request (the tool has no `active` parameter). -/
def mcp_list_employees (st : DBState) (limit offset : Nat)
    (department_id : Option Nat) : List Employee :=
  list_employees st limit offset (mcp_list_employees_forwarded_filter department_id) none

/-! ### Helper lemmas -/

theorem invoices_id_inj {l : List Invoice}
    (hp : l.Pairwise (fun a b => a.id ≠ b.id)) {v w : Invoice}
    (hv : v ∈ l) (hw : w ∈ l) (h : v.id = w.id) : v = w := by
  induction l with
  | nil => cases hv
  | cons x xs ih =>
    rcases List.pairwise_cons.mp hp with ⟨hx, hxs⟩
    rcases List.mem_cons.mp hv with rfl | hv'
    · rcases List.mem_cons.mp hw with rfl | hw'
      · rfl
      · exact absurd h (hx w hw')
    · rcases List.mem_cons.mp hw with rfl | hw'
      · exact absurd h.symm (hx v hv')
      · exact ih hxs hv' hw'

theorem paymentSum_append (ps : List Payment) (q : Payment) (i : Nat) :
    paymentSum (ps ++ [q]) i
      = paymentSum ps i + (if q.invoice_id = i then q.amount_cents else 0) := by
  unfold paymentSum
  rw [List.filter_append]
  by_cases hq : q.invoice_id = i
  · simp [hq]
  · simp [hq]

theorem paymentSum_filter_ne (ps : List Payment) {did i : Nat} (h : i ≠ did) :
    paymentSum (ps.filter (fun p => p.invoice_id != did)) i = paymentSum ps i := by
  unfold paymentSum
  rw [List.filter_filter]
  have heq : List.filter (fun a => (a.invoice_id == i) && (a.invoice_id != did)) ps
      = List.filter (fun p => p.invoice_id == i) ps := by
    apply List.filter_congr
    intro p _
    by_cases hp : p.invoice_id = i
    · subst hp
      simp [h]
    · simp [hp]
  rw [heq]

theorem paymentSum_nonneg {ps : List Payment} (h : ∀ q ∈ ps, 0 < q.amount_cents) (i : Nat) :
    0 ≤ paymentSum ps i := by
  unfold paymentSum
  apply List.sum_nonneg
  intro x hx
  rcases List.mem_map.mp hx with ⟨q, hq, rfl⟩
  exact le_of_lt (h q (List.mem_filter.mp hq).1)

theorem create_department_frame {st : DBState} {p : DepartmentCreate}
    {r : Department} {st' : DBState} (h : create_department st p = .ok (r, st')) :
    st'.invoices = st.invoices ∧ st'.payments = st.payments ∧
    st'.next_invoice_id = st.next_invoice_id := by
  unfold create_department at h
  split at h
  · simp at h
  split at h
  · simp at h
  rw [Except.ok.injEq, Prod.mk.injEq] at h
  obtain ⟨-, hst⟩ := h
  subst hst
  exact ⟨rfl, rfl, rfl⟩

theorem create_employee_frame {st : DBState} {p : EmployeeCreate}
    {r : Employee} {st' : DBState} (h : create_employee st p = .ok (r, st')) :
    st'.invoices = st.invoices ∧ st'.payments = st.payments ∧
    st'.next_invoice_id = st.next_invoice_id := by
  unfold create_employee at h
  split at h
  · simp at h
  split at h
  · simp at h
  split at h
  · simp at h
  rw [Except.ok.injEq, Prod.mk.injEq] at h
  obtain ⟨-, hst⟩ := h
  subst hst
  exact ⟨rfl, rfl, rfl⟩

theorem create_supplier_frame {st : DBState} {p : SupplierCreate}
    {r : Supplier} {st' : DBState} (h : create_supplier st p = .ok (r, st')) :
    st'.invoices = st.invoices ∧ st'.payments = st.payments ∧
    st'.next_invoice_id = st.next_invoice_id := by
  unfold create_supplier at h
  split at h
  · simp at h
  rw [Except.ok.injEq, Prod.mk.injEq] at h
  obtain ⟨-, hst⟩ := h
  subst hst
  exact ⟨rfl, rfl, rfl⟩

theorem create_po_frame {st : DBState} {p : POCreate}
    {r : PurchaseOrder} {st' : DBState} (h : create_po st p = .ok (r, st')) :
    st'.invoices = st.invoices ∧ st'.payments = st.payments ∧
    st'.next_invoice_id = st.next_invoice_id := by
  unfold create_po at h
  split at h
  · simp at h
  split at h
  · simp at h
  split at h
  · simp at h
  split at h
  · simp at h
  rw [Except.ok.injEq, Prod.mk.injEq] at h
  obtain ⟨-, hst⟩ := h
  subst hst
  exact ⟨rfl, rfl, rfl⟩

theorem create_invoice_ok {st : DBState} {p : InvoiceCreate}
    {r : Invoice} {st' : DBState} (h : create_invoice st p = .ok (r, st')) :
    r = { id := st.next_invoice_id, supplier_id := p.supplier_id, po_id := p.po_id,
          invoice_no := p.invoice_no, issued_on := p.issued_on, due_on := p.due_on,
          amount_cents := p.amount_cents, status := p.status } ∧
    st'.invoices = st.invoices ++ [r] ∧
    st'.payments = st.payments ∧
    st'.next_invoice_id = st.next_invoice_id + 1 := by
  unfold create_invoice at h
  split at h
  · simp at h
  split at h
  · simp at h
  split at h
  · simp at h
  split at h
  · simp at h
  rw [Except.ok.injEq, Prod.mk.injEq] at h
  obtain ⟨hr, hst⟩ := h
  subst hst
  subst hr
  exact ⟨rfl, rfl, rfl, rfl⟩

theorem delete_department_frame {st : DBState} {i : Nat} {st' : DBState}
    (h : delete_department st i = .ok st') :
    st'.invoices = st.invoices ∧ st'.payments = st.payments ∧
    st'.next_invoice_id = st.next_invoice_id := by
  unfold delete_department at h
  split at h
  · simp at h
  split at h
  · simp at h
  rw [Except.ok.injEq] at h
  subst h
  exact ⟨rfl, rfl, rfl⟩

theorem delete_employee_frame {st : DBState} {i : Nat} {st' : DBState}
    (h : delete_employee st i = .ok st') :
    st'.invoices = st.invoices ∧ st'.payments = st.payments ∧
    st'.next_invoice_id = st.next_invoice_id := by
  unfold delete_employee at h
  split at h
  · simp at h
  split at h
  · simp at h
  rw [Except.ok.injEq] at h
  subst h
  exact ⟨rfl, rfl, rfl⟩

theorem delete_supplier_frame {st : DBState} {i : Nat} {st' : DBState}
    (h : delete_supplier st i = .ok st') :
    st'.invoices = st.invoices ∧ st'.payments = st.payments ∧
    st'.next_invoice_id = st.next_invoice_id := by
  unfold delete_supplier at h
  split at h
  · simp at h
  split at h
  · simp at h
  rw [Except.ok.injEq] at h
  subst h
  exact ⟨rfl, rfl, rfl⟩

theorem delete_po_frame {st : DBState} {i : Nat} {st' : DBState}
    (h : delete_po st i = .ok st') :
    st'.invoices = st.invoices.map
      (fun v => if v.po_id == some i then { v with po_id := none } else v) ∧
    st'.payments = st.payments ∧
    st'.next_invoice_id = st.next_invoice_id := by
  unfold delete_po at h
  split at h
  · simp at h
  rw [Except.ok.injEq] at h
  subst h
  exact ⟨rfl, rfl, rfl⟩

theorem delete_invoice_frame {st : DBState} {i : Nat} {st' : DBState}
    (h : delete_invoice st i = .ok st') :
    st'.invoices = st.invoices.filter (fun v => v.id != i) ∧
    st'.payments = st.payments.filter (fun q => q.invoice_id != i) ∧
    st'.next_invoice_id = st.next_invoice_id := by
  unfold delete_invoice at h
  split at h
  · simp at h
  rw [Except.ok.injEq] at h
  subst h
  exact ⟨rfl, rfl, rfl⟩

theorem delete_payment_frame {st : DBState} {i : Nat} {st' : DBState}
    (h : delete_payment st i = .ok st') :
    st'.invoices = st.invoices ∧
    st'.payments = st.payments.filter (fun q => q.id != i) ∧
    st'.next_invoice_id = st.next_invoice_id := by
  unfold delete_payment at h
  split at h
  · simp at h
  rw [Except.ok.injEq] at h
  subst h
  exact ⟨rfl, rfl, rfl⟩

theorem create_payment_ok {st : DBState} {p : PaymentCreate} {pay : Payment} {st' : DBState}
    (h : create_payment st p = .ok (pay, st')) :
    ∃ inv0, st.invoices.find? (fun v => v.id == p.invoice_id) = some inv0 ∧
      0 < p.amount_cents ∧
      pay = { id := st.next_payment_id, invoice_id := p.invoice_id, paid_on := p.paid_on,
              amount_cents := p.amount_cents, method := p.method, reference := p.reference } ∧
      st'.payments = st.payments ++ [pay] ∧
      st'.next_invoice_id = st.next_invoice_id ∧
      st'.departments = st.departments ∧
      ((inv0.amount_cents ≤ paymentSum st'.payments inv0.id ∧ inv0.status ≠ .PAID ∧
          st'.invoices = st.invoices.map
            (fun v => if v.id == inv0.id then { v with status := .PAID } else v))
       ∨ (¬(inv0.amount_cents ≤ paymentSum st'.payments inv0.id ∧ inv0.status ≠ .PAID) ∧
          st'.invoices = st.invoices)) := by
  unfold create_payment at h
  split at h
  · simp at h
  next hamt =>
    split at h
    · simp at h
    next inv heq =>
      dsimp only at h
      split at h
      next hcond =>
        rw [Except.ok.injEq, Prod.mk.injEq] at h
        obtain ⟨hpay, hst⟩ := h
        subst hst
        subst hpay
        refine ⟨inv, heq, by omega, rfl, rfl, rfl, rfl, ?_⟩
        rw [Bool.and_eq_true, decide_eq_true_iff, bne_iff_ne] at hcond
        exact .inl ⟨hcond.1, hcond.2, rfl⟩
      next hcond =>
        rw [Except.ok.injEq, Prod.mk.injEq] at h
        obtain ⟨hpay, hst⟩ := h
        subst hst
        subst hpay
        refine ⟨inv, heq, by omega, rfl, rfl, rfl, rfl, ?_⟩
        rw [Bool.and_eq_true, decide_eq_true_iff, bne_iff_ne] at hcond
        exact .inr ⟨fun hc => hcond ⟨hc.1, hc.2⟩, rfl⟩

theorem preserve_of_frame {st st' : DBState}
    (hi : st'.invoices = st.invoices) (hp : st'.payments = st.payments)
    (hn : st'.next_invoice_id = st.next_invoice_id)
    (hwf : WF st) (hinv : InvariantPaid st) : WF st' ∧ InvariantPaid st' := by
  obtain ⟨hbound, hpair, hpos⟩ := hwf
  refine ⟨⟨?_, ?_, ?_⟩, ?_⟩
  · rw [hi, hn]; exact hbound
  · rw [hi]; exact hpair
  · rw [hp]; exact hpos
  · unfold InvariantPaid at hinv ⊢
    rw [hi, hp]
    exact hinv

theorem settle_id (inv0 u : Invoice) :
    ((if u.id == inv0.id then { u with status := InvStatus.PAID } else u) : Invoice).id
      = u.id := by
  split <;> rfl

theorem detach_id (i : Nat) (u : Invoice) :
    ((if u.po_id == some i then { u with po_id := none } else u) : Invoice).id = u.id := by
  split <;> rfl

theorem mem_settle_map {l : List Invoice} {inv0 v : Invoice}
    (hv : v ∈ l.map (fun u => if u.id == inv0.id then { u with status := InvStatus.PAID } else u)) :
    (∃ u ∈ l, u.id = inv0.id ∧ v = { u with status := InvStatus.PAID }) ∨
    (∃ u ∈ l, u.id ≠ inv0.id ∧ v = u) := by
  rcases List.mem_map.mp hv with ⟨u, hu, rfl⟩
  by_cases hid : u.id = inv0.id
  · exact .inl ⟨u, hu, hid, by simp [hid]⟩
  · exact .inr ⟨u, hu, hid, by simp [hid]⟩

theorem mem_detach_map {l : List Invoice} {i : Nat} {v : Invoice}
    (hv : v ∈ l.map (fun u => if u.po_id == some i then { u with po_id := none } else u)) :
    ∃ u ∈ l, v.id = u.id ∧ v.status = u.status ∧ v.amount_cents = u.amount_cents := by
  rcases List.mem_map.mp hv with ⟨u, hu, rfl⟩
  refine ⟨u, hu, ?_⟩
  by_cases hid : u.po_id = some i
  · simp [hid]
  · simp [hid]

theorem step_preserves {st : DBState} {op : Op} (hop : GoodOp op = true)
    (hwf : WF st) (hinv : InvariantPaid st) :
    WF (runOp st op) ∧ InvariantPaid (runOp st op) := by
  unfold runOp
  cases hap : applyOp st op with
  | error e => exact ⟨hwf, hinv⟩
  | ok st' =>
    cases op with
    | opCreateDepartment p =>
      cases hmap : create_department st p with
      | error e => simp [applyOp, hmap, Except.map] at hap
      | ok r =>
        obtain ⟨rec, st2⟩ := r
        simp only [applyOp, hmap, Except.map, Except.ok.injEq] at hap
        subst hap
        obtain ⟨hi, hp, hn⟩ := create_department_frame hmap
        exact preserve_of_frame hi hp hn hwf hinv
    | opCreateEmployee p =>
      cases hmap : create_employee st p with
      | error e => simp [applyOp, hmap, Except.map] at hap
      | ok r =>
        obtain ⟨rec, st2⟩ := r
        simp only [applyOp, hmap, Except.map, Except.ok.injEq] at hap
        subst hap
        obtain ⟨hi, hp, hn⟩ := create_employee_frame hmap
        exact preserve_of_frame hi hp hn hwf hinv
    | opCreateSupplier p =>
      cases hmap : create_supplier st p with
      | error e => simp [applyOp, hmap, Except.map] at hap
      | ok r =>
        obtain ⟨rec, st2⟩ := r
        simp only [applyOp, hmap, Except.map, Except.ok.injEq] at hap
        subst hap
        obtain ⟨hi, hp, hn⟩ := create_supplier_frame hmap
        exact preserve_of_frame hi hp hn hwf hinv
    | opCreatePO p =>
      cases hmap : create_po st p with
      | error e => simp [applyOp, hmap, Except.map] at hap
      | ok r =>
        obtain ⟨rec, st2⟩ := r
        simp only [applyOp, hmap, Except.map, Except.ok.injEq] at hap
        subst hap
        obtain ⟨hi, hp, hn⟩ := create_po_frame hmap
        exact preserve_of_frame hi hp hn hwf hinv
    | opDeleteDepartment i =>
      simp only [applyOp] at hap
      obtain ⟨hi, hp, hn⟩ := delete_department_frame hap
      exact preserve_of_frame hi hp hn hwf hinv
    | opDeleteEmployee i =>
      simp only [applyOp] at hap
      obtain ⟨hi, hp, hn⟩ := delete_employee_frame hap
      exact preserve_of_frame hi hp hn hwf hinv
    | opDeleteSupplier i =>
      simp only [applyOp] at hap
      obtain ⟨hi, hp, hn⟩ := delete_supplier_frame hap
      exact preserve_of_frame hi hp hn hwf hinv
    | opDeletePayment i =>
      simp [GoodOp] at hop
    | opDeletePO i =>
      simp only [applyOp] at hap
      obtain ⟨hi, hp, hn⟩ := delete_po_frame hap
      obtain ⟨hbound, hpair, hpos⟩ := hwf
      constructor
      · unfold WF
        refine ⟨?_, ?_, ?_⟩
        · intro v hv
          rw [hi] at hv
          rw [hn]
          rcases mem_detach_map hv with ⟨u, hu, hid, -, -⟩
          rw [hid]
          exact hbound u hu
        · rw [hi, List.pairwise_map]
          refine hpair.imp ?_
          intro a b hab
          rw [detach_id, detach_id]
          exact hab
        · rw [hp]; exact hpos
      · unfold InvariantPaid
        intro v hv hvPaid
        rw [hi] at hv
        rw [hp]
        rcases mem_detach_map hv with ⟨u, hu, hid, hstat, hamt⟩
        rw [hid, hamt]
        exact hinv u hu (hstat ▸ hvPaid)
    | opDeleteInvoice i =>
      simp only [applyOp] at hap
      obtain ⟨hi, hp, hn⟩ := delete_invoice_frame hap
      obtain ⟨hbound, hpair, hpos⟩ := hwf
      constructor
      · unfold WF
        refine ⟨?_, ?_, ?_⟩
        · intro v hv
          rw [hi] at hv
          rw [hn]
          exact hbound v (List.mem_filter.mp hv).1
        · rw [hi]
          exact hpair.sublist (List.filter_sublist _)
        · intro q hq
          rw [hp] at hq
          exact hpos q (List.mem_filter.mp hq).1
      · unfold InvariantPaid
        intro v hv hvPaid
        rw [hi] at hv
        rw [hp]
        obtain ⟨hv', hne⟩ := List.mem_filter.mp hv
        rw [bne_iff_ne] at hne
        rw [paymentSum_filter_ne _ hne]
        exact hinv v hv' hvPaid
    | opCreateInvoice p =>
      cases hmap : create_invoice st p with
      | error e => simp [applyOp, hmap, Except.map] at hap
      | ok r =>
        obtain ⟨rec, st2⟩ := r
        simp only [applyOp, hmap, Except.map, Except.ok.injEq] at hap
        subst hap
        obtain ⟨hrec, hi, hp, hn⟩ := create_invoice_ok hmap
        obtain ⟨hbound, hpair, hpos⟩ := hwf
        have hstatus : p.status ≠ .PAID := by
          simp only [GoodOp, bne_iff_ne] at hop
          exact hop
        constructor
        · unfold WF
          refine ⟨?_, ?_, ?_⟩
          · intro v hv
            rw [hi] at hv
            rw [hn]
            rcases List.mem_append.mp hv with hv' | hv'
            · exact Nat.lt_succ_of_lt (hbound v hv')
            · rw [List.mem_singleton.mp hv', hrec]
              exact Nat.lt_succ_self _
          · rw [hi, List.pairwise_append]
            refine ⟨hpair, List.pairwise_singleton _ _, ?_⟩
            intro a ha b hb
            rw [List.mem_singleton.mp hb, hrec]
            exact Nat.ne_of_lt (hbound a ha)
          · rw [hp]; exact hpos
        · unfold InvariantPaid
          intro v hv hvPaid
          rw [hi] at hv
          rw [hp]
          rcases List.mem_append.mp hv with hv' | hv'
          · exact hinv v hv' hvPaid
          · exfalso
            rw [List.mem_singleton.mp hv', hrec] at hvPaid
            exact hstatus hvPaid
    | opCreatePayment p =>
      cases hmap : create_payment st p with
      | error e => simp [applyOp, hmap, Except.map] at hap
      | ok r =>
        obtain ⟨pay, st2⟩ := r
        simp only [applyOp, hmap, Except.map, Except.ok.injEq] at hap
        subst hap
        obtain ⟨inv0, heq, hpos0, hpayEq, hpays, hn, -, hdisj⟩ := create_payment_ok hmap
        obtain ⟨hbound, hpair, hpos⟩ := hwf
        have hinv0mem : inv0 ∈ st.invoices := List.mem_of_find?_eq_some heq
        have hsum : ∀ i, paymentSum st.payments i ≤ paymentSum st2.payments i := by
          intro i
          rw [hpays, paymentSum_append]
          have hnn : (0:Int) ≤ (if pay.invoice_id = i then pay.amount_cents else 0) := by
            split
            · rw [hpayEq]; exact le_of_lt hpos0
            · exact le_refl 0
          omega
        have hinvoices : (st2.invoices = st.invoices) ∨
            (st2.invoices = st.invoices.map
              (fun v => if v.id == inv0.id then { v with status := InvStatus.PAID } else v)) := by
          rcases hdisj with ⟨-, -, hm⟩ | ⟨-, hm⟩
          · exact .inr hm
          · exact .inl hm
        constructor
        · unfold WF
          refine ⟨?_, ?_, ?_⟩
          · intro v hv
            rw [hn]
            rcases hinvoices with hm | hm
            · rw [hm] at hv; exact hbound v hv
            · rw [hm] at hv
              rcases List.mem_map.mp hv with ⟨u, hu, rfl⟩
              rw [settle_id]
              exact hbound u hu
          · rcases hinvoices with hm | hm
            · rw [hm]; exact hpair
            · rw [hm, List.pairwise_map]
              refine hpair.imp ?_
              intro a b hab
              rw [settle_id, settle_id]
              exact hab
          · intro q hq
            rw [hpays] at hq
            rcases List.mem_append.mp hq with hq' | hq'
            · exact hpos q hq'
            · rw [List.mem_singleton.mp hq', hpayEq]
              exact hpos0
        · unfold InvariantPaid
          intro v hv hvPaid
          rcases hdisj with ⟨hge, hnp, hm⟩ | ⟨hnc, hm⟩
          · rw [hm] at hv
            rcases mem_settle_map hv with ⟨u, hu, hid, rfl⟩ | ⟨u, hu, hne, rfl⟩
            · have hueq : u = inv0 := invoices_id_inj hpair hu hinv0mem hid
              subst hueq
              exact hge
            · exact le_trans (hinv v hu hvPaid) (hsum v.id)
          · rw [hm] at hv
            exact le_trans (hinv v hv hvPaid) (hsum v.id)

theorem runOps_preserves : ∀ {ops : List Op} {st : DBState},
    (∀ op ∈ ops, GoodOp op = true) → WF st → InvariantPaid st →
    WF (runOps st ops) ∧ InvariantPaid (runOps st ops) := by
  intro ops
  induction ops with
  | nil => intro st _ hwf hinv; exact ⟨hwf, hinv⟩
  | cons op ops ih =>
    intro st h hwf hinv
    have hstep := step_preserves (h op (List.mem_cons_self _ _)) hwf hinv
    have : runOps st (op :: ops) = runOps (runOp st op) ops := by
      unfold runOps
      rw [List.foldl_cons]
    rw [this]
    exact ih (fun o ho => h o (List.mem_cons_of_mem _ ho)) hstep.1 hstep.2

theorem wf_initState : WF initState := by
  unfold WF initState
  refine ⟨?_, ?_, ?_⟩ <;> simp

theorem invariantPaid_initState : InvariantPaid initState := by
  unfold InvariantPaid initState
  simp

/-- C1: after every successful payment insertion the settlement rule sums
`amount_cents` over all stored payments of the target invoice inclusive of
the just-inserted one, transitions the invoice to `PAID` exactly when that
sum reaches the invoice's `amount_cents`, and leaves the status unchanged
otherwise (so 30000 then 70000 against an OPEN invoice of 100000 settles
exactly on the second insert). -/
theorem settlement_on_payment_insert (st : DBState) (p : PaymentCreate) (inv : Invoice)
    (hwf : WF st) (hmem : inv ∈ st.invoices) (hid : inv.id = p.invoice_id)
    (hamt : 0 < p.amount_cents) :
    ∃ pay st', create_payment st p = .ok (pay, st') ∧
      paymentSum st'.payments p.invoice_id
        = paymentSum st.payments p.invoice_id + p.amount_cents ∧
      (inv.amount_cents ≤ paymentSum st'.payments p.invoice_id →
        ∀ w ∈ st'.invoices, w.id = p.invoice_id → w.status = .PAID) ∧
      (¬inv.amount_cents ≤ paymentSum st'.payments p.invoice_id →
        ∀ w ∈ st'.invoices, w.id = p.invoice_id → w.status = inv.status) ∧
      (∃ w ∈ st'.invoices, w.id = p.invoice_id) := by
  obtain ⟨hbound, hpair, hpos⟩ := hwf
  obtain ⟨inv0, hfind⟩ : ∃ inv0,
      st.invoices.find? (fun v => v.id == p.invoice_id) = some inv0 := by
    have hsome : (st.invoices.find? (fun v => v.id == p.invoice_id)).isSome :=
      List.find?_isSome.mpr ⟨inv, hmem, by simp [hid]⟩
    exact Option.isSome_iff_exists.mp hsome
  have hok : ∃ pay st', create_payment st p = .ok (pay, st') := by
    unfold create_payment
    rw [if_neg (by omega : ¬p.amount_cents ≤ 0), hfind]
    dsimp only
    split
    · exact ⟨_, _, rfl⟩
    · exact ⟨_, _, rfl⟩
  obtain ⟨pay, st', hok⟩ := hok
  obtain ⟨inv0', hfind', hpos0, hpayEq, hpays, -, -, hdisj⟩ := create_payment_ok hok
  rw [hfind] at hfind'
  cases hfind'
  have hinv0 : inv = inv0 := by
    have h1 : inv0 ∈ st.invoices := List.mem_of_find?_eq_some hfind
    have h2 : inv0.id = p.invoice_id := by
      have := List.find?_some hfind
      simpa using this
    exact (invoices_id_inj hpair h1 hmem (h2.trans hid.symm)).symm
  subst hinv0
  refine ⟨pay, st', hok, ?_, ?_, ?_, ?_⟩
  · rw [hpays, paymentSum_append]
    simp [hpayEq]
  · intro hge w hw hwid
    rcases hdisj with ⟨hge0, hnp0, hm⟩ | ⟨hnc, hm⟩
    · rw [hm] at hw
      rcases mem_settle_map hw with ⟨u, hu, huid, rfl⟩ | ⟨u, hu, hune, heqw⟩
      · rfl
      · exfalso
        subst heqw
        exact hune (hwid.trans hid.symm)
    · rw [hm] at hw
      have hw2 : w = inv := invoices_id_inj hpair hw hmem (hwid.trans hid.symm)
      subst hw2
      by_cases hst : w.status = InvStatus.PAID
      · exact hst
      · exfalso
        apply hnc
        refine ⟨?_, hst⟩
        rw [hid]
        exact hge
  · intro hlt w hw hwid
    rcases hdisj with ⟨hge0, hnp0, hm⟩ | ⟨hnc, hm⟩
    · exfalso
      apply hlt
      rw [← hid]
      exact hge0
    · rw [hm] at hw
      have hw2 : w = inv := invoices_id_inj hpair hw hmem (hwid.trans hid.symm)
      rw [hw2]
  · rcases hdisj with ⟨hge0, hnp0, hm⟩ | ⟨hnc, hm⟩
    · refine ⟨(if inv.id == inv.id then { inv with status := InvStatus.PAID } else inv), ?_, ?_⟩
      · rw [hm]
        exact List.mem_map.mpr ⟨inv, hmem, rfl⟩
      · rw [settle_id]
        exact hid
    · refine ⟨inv, ?_, hid⟩
      rw [hm]
      exact hmem

/-- Store reached by creating a supplier, an OPEN invoice of 100000 cents
and a first payment of 30000 cents. -/
def scenarioAfterFirstPayment : DBState :=
  runOps initState
    [ .opCreateSupplier { name := "ACME", tax_id := "TAX-1", email := none, phone := none },
      .opCreateInvoice { supplier_id := 1, po_id := none, invoice_no := "NF-1",
                         issued_on := "2026-01-01", due_on := "2026-02-01",
                         amount_cents := 100000, status := .OPEN },
      .opCreatePayment { invoice_id := 1, paid_on := "2026-01-10", amount_cents := 30000,
                         method := .PIX, reference := none } ]

/-- The stored invoice of `scenarioAfterFirstPayment`: still OPEN after the
first 30000-cent payment. -/
def scenarioInvoice : Invoice :=
  { id := 1, supplier_id := 1, po_id := none, invoice_no := "NF-1",
    issued_on := "2026-01-01", due_on := "2026-02-01",
    amount_cents := 100000, status := .OPEN }

/-- The second payment of the C1 scenario, 70000 cents. -/
def scenarioSecondPayment : PaymentCreate :=
  { invoice_id := 1, paid_on := "2026-01-20", amount_cents := 70000,
    method := .PIX, reference := none }

/-- Witness for C1: the OPEN invoice of 100000 cents is still OPEN with a
payment sum of 30000 after the first insert, and the theorem applied to
the second 70000-cent insert yields the settlement facts there. -/
theorem settlement_on_payment_insert_witness :
    WF scenarioAfterFirstPayment ∧
    scenarioInvoice ∈ scenarioAfterFirstPayment.invoices ∧
    scenarioInvoice.id = scenarioSecondPayment.invoice_id ∧
    (0 : Int) < scenarioSecondPayment.amount_cents ∧
    scenarioInvoice.status = .OPEN ∧
    paymentSum scenarioAfterFirstPayment.payments 1 = 30000 ∧
    (∃ pay st', create_payment scenarioAfterFirstPayment scenarioSecondPayment = .ok (pay, st') ∧
      paymentSum st'.payments scenarioSecondPayment.invoice_id
        = paymentSum scenarioAfterFirstPayment.payments scenarioSecondPayment.invoice_id
          + scenarioSecondPayment.amount_cents ∧
      (scenarioInvoice.amount_cents ≤ paymentSum st'.payments scenarioSecondPayment.invoice_id →
        ∀ w ∈ st'.invoices, w.id = scenarioSecondPayment.invoice_id → w.status = .PAID) ∧
      (¬scenarioInvoice.amount_cents ≤ paymentSum st'.payments scenarioSecondPayment.invoice_id →
        ∀ w ∈ st'.invoices, w.id = scenarioSecondPayment.invoice_id → w.status = scenarioInvoice.status) ∧
      (∃ w ∈ st'.invoices, w.id = scenarioSecondPayment.invoice_id)) :=
  ⟨by unfold WF; decide, by decide, by decide, by decide, by decide, by decide,
   settlement_on_payment_insert scenarioAfterFirstPayment scenarioSecondPayment scenarioInvoice
     (by unfold WF; decide) (by decide) (by decide) (by decide)⟩

/-- C2: the settlement rule is idempotent and accepts overpayment — a
payment against an already-PAID invoice is a no-op on the invoice table
(the not-already-PAID guard short-circuits the write, the status stays
PAID), and a payment at least as large as the invoice's `amount_cents` is
never rejected and settles the invoice to PAID. -/
theorem settlement_idempotent_and_overpayment (st : DBState) (p : PaymentCreate) (inv : Invoice)
    (hwf : WF st) (hmem : inv ∈ st.invoices) (hid : inv.id = p.invoice_id)
    (hamt : 0 < p.amount_cents) :
    ∃ pay st', create_payment st p = .ok (pay, st') ∧
      (inv.status = .PAID → st'.invoices = st.invoices) ∧
      (inv.status = .PAID → ∀ w ∈ st'.invoices, w.id = p.invoice_id → w.status = .PAID) ∧
      (inv.amount_cents ≤ p.amount_cents →
        ∀ w ∈ st'.invoices, w.id = p.invoice_id → w.status = .PAID) := by
  obtain ⟨hbound, hpair, hpos⟩ := hwf
  obtain ⟨inv0, hfind⟩ : ∃ inv0,
      st.invoices.find? (fun v => v.id == p.invoice_id) = some inv0 := by
    have hsome : (st.invoices.find? (fun v => v.id == p.invoice_id)).isSome :=
      List.find?_isSome.mpr ⟨inv, hmem, by simp [hid]⟩
    exact Option.isSome_iff_exists.mp hsome
  have hok : ∃ pay st', create_payment st p = .ok (pay, st') := by
    unfold create_payment
    rw [if_neg (by omega : ¬p.amount_cents ≤ 0), hfind]
    dsimp only
    split
    · exact ⟨_, _, rfl⟩
    · exact ⟨_, _, rfl⟩
  obtain ⟨pay, st', hok⟩ := hok
  obtain ⟨inv0', hfind', hpos0, hpayEq, hpays, -, -, hdisj⟩ := create_payment_ok hok
  rw [hfind] at hfind'
  cases hfind'
  have hinv0 : inv = inv0 := by
    have h1 : inv0 ∈ st.invoices := List.mem_of_find?_eq_some hfind
    have h2 : inv0.id = p.invoice_id := by
      have := List.find?_some hfind
      simpa using this
    exact (invoices_id_inj hpair h1 hmem (h2.trans hid.symm)).symm
  subst hinv0
  have hsumeq : paymentSum st'.payments p.invoice_id
      = paymentSum st.payments p.invoice_id + p.amount_cents := by
    rw [hpays, paymentSum_append]
    simp [hpayEq]
  have hunchanged : inv.status = .PAID → st'.invoices = st.invoices := by
    intro hPaid
    rcases hdisj with ⟨-, hnp0, -⟩ | ⟨-, hm⟩
    · exact absurd hPaid hnp0
    · exact hm
  refine ⟨pay, st', hok, hunchanged, ?_, ?_⟩
  · intro hPaid w hw hwid
    rw [hunchanged hPaid] at hw
    have hw2 : w = inv := invoices_id_inj hpair hw hmem (hwid.trans hid.symm)
    rw [hw2]
    exact hPaid
  · intro hover w hw hwid
    have hge : inv.amount_cents ≤ paymentSum st'.payments p.invoice_id := by
      have hnn : 0 ≤ paymentSum st.payments p.invoice_id := paymentSum_nonneg hpos _
      omega
    rcases hdisj with ⟨hge0, hnp0, hm⟩ | ⟨hnc, hm⟩
    · rw [hm] at hw
      rcases mem_settle_map hw with ⟨u, hu, huid, rfl⟩ | ⟨u, hu, hune, heqw⟩
      · rfl
      · exfalso
        subst heqw
        exact hune (hwid.trans hid.symm)
    · rw [hm] at hw
      have hw2 : w = inv := invoices_id_inj hpair hw hmem (hwid.trans hid.symm)
      subst hw2
      by_cases hst : w.status = InvStatus.PAID
      · exact hst
      · exfalso
        apply hnc
        refine ⟨?_, hst⟩
        rw [hid]
        exact hge

/-- Store holding a supplier and an invoice that is already PAID. -/
def paidInvoiceStore : DBState :=
  runOps initState
    [ .opCreateSupplier { name := "ACME", tax_id := "TAX-1", email := none, phone := none },
      .opCreateInvoice { supplier_id := 1, po_id := none, invoice_no := "NF-2",
                         issued_on := "2026-01-01", due_on := "2026-02-01",
                         amount_cents := 100000, status := .PAID } ]

/-- The stored PAID invoice of `paidInvoiceStore`. -/
def paidStoredInvoice : Invoice :=
  { id := 1, supplier_id := 1, po_id := none, invoice_no := "NF-2",
    issued_on := "2026-01-01", due_on := "2026-02-01",
    amount_cents := 100000, status := .PAID }

/-- A further 5000-cent payment against the already-PAID invoice. -/
def latePayment : PaymentCreate :=
  { invoice_id := 1, paid_on := "2026-03-01", amount_cents := 5000,
    method := .TED, reference := none }

/-- Store holding a supplier and an OPEN invoice of 100000 cents. -/
def openInvoiceStore : DBState :=
  runOps initState
    [ .opCreateSupplier { name := "ACME", tax_id := "TAX-1", email := none, phone := none },
      .opCreateInvoice { supplier_id := 1, po_id := none, invoice_no := "NF-3",
                         issued_on := "2026-01-01", due_on := "2026-02-01",
                         amount_cents := 100000, status := .OPEN } ]

/-- The stored OPEN invoice of `openInvoiceStore`. -/
def openStoredInvoice : Invoice :=
  { id := 1, supplier_id := 1, po_id := none, invoice_no := "NF-3",
    issued_on := "2026-01-01", due_on := "2026-02-01",
    amount_cents := 100000, status := .OPEN }

/-- A 150000-cent overpayment against the 100000-cent OPEN invoice. -/
def overPayment : PaymentCreate :=
  { invoice_id := 1, paid_on := "2026-01-15", amount_cents := 150000,
    method := .PIX, reference := none }

/-- Witness for C2: a payment against the already-PAID invoice leaves the
invoice table untouched, and the 150000-cent overpayment against the
100000-cent invoice is accepted and settles it. -/
theorem settlement_idempotent_and_overpayment_witness :
    (paidStoredInvoice.status = .PAID ∧ (0 : Int) < latePayment.amount_cents ∧
     ∃ pay st', create_payment paidInvoiceStore latePayment = .ok (pay, st') ∧
       (paidStoredInvoice.status = .PAID → st'.invoices = paidInvoiceStore.invoices) ∧
       (paidStoredInvoice.status = .PAID →
         ∀ w ∈ st'.invoices, w.id = latePayment.invoice_id → w.status = .PAID) ∧
       (paidStoredInvoice.amount_cents ≤ latePayment.amount_cents →
         ∀ w ∈ st'.invoices, w.id = latePayment.invoice_id → w.status = .PAID)) ∧
    (openStoredInvoice.status = .OPEN ∧
     openStoredInvoice.amount_cents ≤ overPayment.amount_cents ∧
     ∃ pay st', create_payment openInvoiceStore overPayment = .ok (pay, st') ∧
       (openStoredInvoice.status = .PAID → st'.invoices = openInvoiceStore.invoices) ∧
       (openStoredInvoice.status = .PAID →
         ∀ w ∈ st'.invoices, w.id = overPayment.invoice_id → w.status = .PAID) ∧
       (openStoredInvoice.amount_cents ≤ overPayment.amount_cents →
         ∀ w ∈ st'.invoices, w.id = overPayment.invoice_id → w.status = .PAID)) :=
  ⟨⟨by decide, by decide,
    settlement_idempotent_and_overpayment paidInvoiceStore latePayment paidStoredInvoice
      (by unfold WF; decide) (by decide) (by decide) (by decide)⟩,
   ⟨by decide, by decide,
    settlement_idempotent_and_overpayment openInvoiceStore overPayment openStoredInvoice
      (by unfold WF; decide) (by decide) (by decide) (by decide)⟩⟩

/-- C3 is refuted on the code: creating an invoice directly in the PAID
status (a public operation — `POST /invoices` accepts an explicit status)
yields a PAID invoice with a payment sum of 0 < 100000, and creating an
OPEN invoice, settling it with one payment and then deleting that payment
(also a public operation) leaves it PAID with a payment sum of 0. -/
theorem settlement_invariant_counterexample :
    ¬ InvariantPaid (runOps initState
      [ .opCreateSupplier { name := "CEX", tax_id := "TAX-9", email := none, phone := none },
        .opCreateInvoice { supplier_id := 1, po_id := none, invoice_no := "NF-9",
                           issued_on := "2026-01-01", due_on := "2026-02-01",
                           amount_cents := 100000, status := .PAID } ]) ∧
    ¬ InvariantPaid (runOps initState
      [ .opCreateSupplier { name := "CEX", tax_id := "TAX-9", email := none, phone := none },
        .opCreateInvoice { supplier_id := 1, po_id := none, invoice_no := "NF-9",
                           issued_on := "2026-01-01", due_on := "2026-02-01",
                           amount_cents := 100000, status := .OPEN },
        .opCreatePayment { invoice_id := 1, paid_on := "2026-01-05", amount_cents := 100000,
                           method := .PIX, reference := none },
        .opDeletePayment 1 ]) := by
  unfold InvariantPaid
  exact ⟨by decide, by decide⟩

/-- C3 (amended): after any sequence of the system's public operations
that contains no payment deletion and creates no invoice directly in the
PAID status, every PAID invoice's accumulated payments reach its
`amount_cents`. -/
theorem settlement_invariant_good_ops (ops : List Op)
    (h : ∀ op ∈ ops, GoodOp op = true) :
    InvariantPaid (runOps initState ops) :=
  (runOps_preserves h wf_initState invariantPaid_initState).2

/-- Witness for the amended C3 on a run that creates a department, a
supplier, an OPEN invoice, settles it with two payments, and creates and
deletes a second invoice. -/
theorem settlement_invariant_good_ops_witness :
    (∀ op ∈
      [ Op.opCreateDepartment { name := "Financeiro", cost_center := "CC-100" },
        Op.opCreateSupplier { name := "ACME", tax_id := "TAX-1", email := none, phone := none },
        Op.opCreateInvoice { supplier_id := 1, po_id := none, invoice_no := "NF-1",
                             issued_on := "2026-01-01", due_on := "2026-02-01",
                             amount_cents := 100000, status := .OPEN },
        Op.opCreatePayment { invoice_id := 1, paid_on := "2026-01-10", amount_cents := 30000,
                             method := .PIX, reference := none },
        Op.opCreatePayment { invoice_id := 1, paid_on := "2026-01-20", amount_cents := 70000,
                             method := .TED, reference := none },
        Op.opCreateInvoice { supplier_id := 1, po_id := none, invoice_no := "NF-2",
                             issued_on := "2026-01-03", due_on := "2026-02-03",
                             amount_cents := 500, status := .OPEN },
        Op.opDeleteInvoice 2 ], GoodOp op = true) ∧
    InvariantPaid (runOps initState
      [ Op.opCreateDepartment { name := "Financeiro", cost_center := "CC-100" },
        Op.opCreateSupplier { name := "ACME", tax_id := "TAX-1", email := none, phone := none },
        Op.opCreateInvoice { supplier_id := 1, po_id := none, invoice_no := "NF-1",
                             issued_on := "2026-01-01", due_on := "2026-02-01",
                             amount_cents := 100000, status := .OPEN },
        Op.opCreatePayment { invoice_id := 1, paid_on := "2026-01-10", amount_cents := 30000,
                             method := .PIX, reference := none },
        Op.opCreatePayment { invoice_id := 1, paid_on := "2026-01-20", amount_cents := 70000,
                             method := .TED, reference := none },
        Op.opCreateInvoice { supplier_id := 1, po_id := none, invoice_no := "NF-2",
                             issued_on := "2026-01-03", due_on := "2026-02-03",
                             amount_cents := 500, status := .OPEN },
        Op.opDeleteInvoice 2 ]) :=
  ⟨by decide, settlement_invariant_good_ops _ (by decide)⟩

/-- Store with a supplier, an OPEN invoice and one recorded payment. -/
def storeWithPayment : DBState :=
  runOps initState
    [ .opCreateSupplier { name := "ACME", tax_id := "TAX-1", email := none, phone := none },
      .opCreateInvoice { supplier_id := 1, po_id := none, invoice_no := "NF-4",
                         issued_on := "2026-01-01", due_on := "2026-02-01",
                         amount_cents := 100000, status := .OPEN },
      .opCreatePayment { invoice_id := 1, paid_on := "2026-01-10", amount_cents := 30000,
                         method := .PIX, reference := none } ]

/-- Store with a supplier and a CANCELLED invoice of 100 cents. -/
def storeWithCancelledInvoice : DBState :=
  runOps initState
    [ .opCreateSupplier { name := "ACME", tax_id := "TAX-1", email := none, phone := none },
      .opCreateInvoice { supplier_id := 1, po_id := none, invoice_no := "NF-5",
                         issued_on := "2026-01-01", due_on := "2026-02-01",
                         amount_cents := 100, status := .CANCELLED } ]

/-- A 100-cent payment against the CANCELLED invoice. -/
def paymentAgainstCancelled : Op :=
  .opCreatePayment { invoice_id := 1, paid_on := "2026-01-10", amount_cents := 100,
                     method := .CASH, reference := none }

/-- C4 is refuted on the code: `DELETE /payments/{id}` is a defined,
succeeding payment-deletion path, and the settlement rule drives a
CANCELLED invoice to PAID (not only OPEN invoices). -/
theorem payment_deletion_and_cancelled_counterexample :
    delete_payment storeWithPayment 1 = .ok (runOp storeWithPayment (.opDeletePayment 1)) ∧
    (runOp storeWithPayment (.opDeletePayment 1)).payments = [] ∧
    storeWithPayment.payments ≠ [] ∧
    storeWithCancelledInvoice.invoices.map (fun v => v.status) = [.CANCELLED] ∧
    (runOp storeWithCancelledInvoice paymentAgainstCancelled).invoices.map (fun v => v.status)
      = [.PAID] :=
  ⟨by rfl, by decide, by decide, by decide, by decide⟩

/-- C4 (amended): the system does define a payment-deletion path
(`DELETE /payments/{id}`), but it never touches the invoice table; and
across every successful operation a surviving invoice's status is either
unchanged or has just moved to PAID from a non-PAID status — so no
operation ever reverts PAID to OPEN and no automatic transition ever
produces CANCELLED or OVERDUE, while the settlement rule drives any
non-PAID status (CANCELLED and OVERDUE included, not only OPEN) to
PAID. -/
theorem invoice_status_only_moves_to_paid :
    (∀ st i st', delete_payment st i = .ok st' → st'.invoices = st.invoices) ∧
    (∀ st op st', WF st → applyOp st op = .ok st' →
      ∀ w ∈ st'.invoices, ∀ v ∈ st.invoices, v.id = w.id →
        w.status = v.status ∨ (w.status = .PAID ∧ v.status ≠ .PAID)) := by
  constructor
  · intro st i st' h
    exact (delete_payment_frame h).1
  · intro st op st' hwf hap w hw v hv hvw
    obtain ⟨hbound, hpair, hpos⟩ := hwf
    have hframe : st'.invoices = st.invoices →
        w.status = v.status ∨ (w.status = .PAID ∧ v.status ≠ .PAID) := by
      intro hinv
      rw [hinv] at hw
      have hwv : w = v := invoices_id_inj hpair hw hv hvw.symm
      exact Or.inl (by rw [hwv])
    cases op with
    | opCreateDepartment p =>
      cases hmap : create_department st p with
      | error e => simp [applyOp, hmap, Except.map] at hap
      | ok r =>
        obtain ⟨rec, st2⟩ := r
        simp only [applyOp, hmap, Except.map, Except.ok.injEq] at hap
        subst hap
        exact hframe (create_department_frame hmap).1
    | opCreateEmployee p =>
      cases hmap : create_employee st p with
      | error e => simp [applyOp, hmap, Except.map] at hap
      | ok r =>
        obtain ⟨rec, st2⟩ := r
        simp only [applyOp, hmap, Except.map, Except.ok.injEq] at hap
        subst hap
        exact hframe (create_employee_frame hmap).1
    | opCreateSupplier p =>
      cases hmap : create_supplier st p with
      | error e => simp [applyOp, hmap, Except.map] at hap
      | ok r =>
        obtain ⟨rec, st2⟩ := r
        simp only [applyOp, hmap, Except.map, Except.ok.injEq] at hap
        subst hap
        exact hframe (create_supplier_frame hmap).1
    | opCreatePO p =>
      cases hmap : create_po st p with
      | error e => simp [applyOp, hmap, Except.map] at hap
      | ok r =>
        obtain ⟨rec, st2⟩ := r
        simp only [applyOp, hmap, Except.map, Except.ok.injEq] at hap
        subst hap
        exact hframe (create_po_frame hmap).1
    | opDeleteDepartment i =>
      simp only [applyOp] at hap
      exact hframe (delete_department_frame hap).1
    | opDeleteEmployee i =>
      simp only [applyOp] at hap
      exact hframe (delete_employee_frame hap).1
    | opDeleteSupplier i =>
      simp only [applyOp] at hap
      exact hframe (delete_supplier_frame hap).1
    | opDeletePayment i =>
      simp only [applyOp] at hap
      exact hframe (delete_payment_frame hap).1
    | opDeletePO i =>
      simp only [applyOp] at hap
      obtain ⟨hi, -, -⟩ := delete_po_frame hap
      rw [hi] at hw
      rcases mem_detach_map hw with ⟨u, hu, huid, hustat, -⟩
      have huv : u = v := invoices_id_inj hpair hu hv (huid ▸ hvw).symm
      exact Or.inl (by rw [hustat, huv])
    | opDeleteInvoice i =>
      simp only [applyOp] at hap
      obtain ⟨hi, -, -⟩ := delete_invoice_frame hap
      rw [hi] at hw
      have hwv : w = v :=
        invoices_id_inj hpair (List.mem_filter.mp hw).1 hv hvw.symm
      exact Or.inl (by rw [hwv])
    | opCreateInvoice p =>
      cases hmap : create_invoice st p with
      | error e => simp [applyOp, hmap, Except.map] at hap
      | ok r =>
        obtain ⟨rec, st2⟩ := r
        simp only [applyOp, hmap, Except.map, Except.ok.injEq] at hap
        subst hap
        obtain ⟨hrec, hi, -, -⟩ := create_invoice_ok hmap
        rw [hi] at hw
        rcases List.mem_append.mp hw with hw' | hw'
        · have hwv : w = v := invoices_id_inj hpair hw' hv hvw.symm
          exact Or.inl (by rw [hwv])
        · exfalso
          have hwrec : w = rec := List.mem_singleton.mp hw'
          have : v.id < st.next_invoice_id := hbound v hv
          rw [hvw, hwrec, hrec] at this
          exact lt_irrefl _ this
    | opCreatePayment p =>
      cases hmap : create_payment st p with
      | error e => simp [applyOp, hmap, Except.map] at hap
      | ok r =>
        obtain ⟨pay, st2⟩ := r
        simp only [applyOp, hmap, Except.map, Except.ok.injEq] at hap
        subst hap
        obtain ⟨inv0, heq, -, -, -, -, -, hdisj⟩ := create_payment_ok hmap
        have hinv0mem : inv0 ∈ st.invoices := List.mem_of_find?_eq_some heq
        rcases hdisj with ⟨-, hnp, hm⟩ | ⟨-, hm⟩
        · rw [hm] at hw
          rcases mem_settle_map hw with ⟨u, hu, huid, rfl⟩ | ⟨u, hu, -, heqw⟩
          · have huv : u = v := invoices_id_inj hpair hu hv hvw.symm
            have hu0 : u = inv0 := invoices_id_inj hpair hu hinv0mem huid
            refine Or.inr ⟨rfl, ?_⟩
            rw [← huv, hu0]
            exact hnp
          · subst heqw
            have hwv : w = v := invoices_id_inj hpair hu hv hvw.symm
            exact Or.inl (by rw [hwv])
        · exact hframe hm

/-- Witness for the amended C4: deleting the recorded payment leaves the
invoice table untouched, and the payment that settles the CANCELLED
invoice only ever moves a status to PAID. -/
theorem invoice_status_only_moves_to_paid_witness :
    delete_payment storeWithPayment 1
      = .ok (runOp storeWithPayment (.opDeletePayment 1)) ∧
    (runOp storeWithPayment (.opDeletePayment 1)).invoices = storeWithPayment.invoices ∧
    WF storeWithCancelledInvoice ∧
    applyOp storeWithCancelledInvoice paymentAgainstCancelled
      = .ok (runOp storeWithCancelledInvoice paymentAgainstCancelled) ∧
    (∀ w ∈ (runOp storeWithCancelledInvoice paymentAgainstCancelled).invoices,
      ∀ v ∈ storeWithCancelledInvoice.invoices, v.id = w.id →
        w.status = v.status ∨ (w.status = .PAID ∧ v.status ≠ .PAID)) :=
  ⟨by rfl,
   invoice_status_only_moves_to_paid.1 storeWithPayment 1 _ (by rfl),
   by unfold WF; decide,
   by rfl,
   invoice_status_only_moves_to_paid.2 storeWithCancelledInvoice paymentAgainstCancelled _
     (by unfold WF; decide) (by rfl)⟩

/-- Store with a department and an employee referencing it. -/
def deptInUseStore : DBState :=
  runOps initState
    [ .opCreateDepartment { name := "Financeiro", cost_center := "CC-100" },
      .opCreateEmployee { department_id := 1, full_name := "Ana Souza",
                          email := "ana.souza@empresa.com", role := "Analista",
                          salary_cents := 550000, hired_on := "2023-02-10", active := true } ]

/-- C5 is refuted on the code: deleting a department referenced by an
employee fails, but as the generic uncaught store error (a
500-equivalent), not as a handler-raised, recognizable conflict response —
the delete handlers have no exception handler around `db.commit()`.  The
record does remain stored. -/
theorem restrict_delete_generic_counterexample :
    delete_department deptInUseStore 1 = .error .storeErr ∧
    ApiError.storeErr.isHandlerRaised = false ∧
    (runOp deptInUseStore (.opDeleteDepartment 1)).departments = deptInUseStore.departments ∧
    deptInUseStore.departments ≠ [] :=
  ⟨by rfl, by decide, by decide, by decide⟩

/-- C5 (amended): deleting a Department (likewise Employee, Supplier)
referenced by another stored entity fails — the store's restrict
constraint rejects the commit — and the record remains stored, but the
failure surfaces as the generic uncaught store error rather than as a
distinct handler-raised conflict response. -/
theorem restrict_delete_fails_generic :
    (∀ st (d : Department) (e : Employee), d ∈ st.departments → e ∈ st.employees →
      e.department_id = d.id →
      delete_department st d.id = .error .storeErr ∧
      d ∈ (runOp st (.opDeleteDepartment d.id)).departments) ∧
    (∀ st (emp : Employee) (o : PurchaseOrder), emp ∈ st.employees →
      o ∈ st.purchase_orders → o.requested_by = emp.id →
      delete_employee st emp.id = .error .storeErr ∧
      emp ∈ (runOp st (.opDeleteEmployee emp.id)).employees) ∧
    (∀ st (s : Supplier) (v : Invoice), s ∈ st.suppliers → v ∈ st.invoices →
      v.supplier_id = s.id →
      delete_supplier st s.id = .error .storeErr ∧
      s ∈ (runOp st (.opDeleteSupplier s.id)).suppliers) := by
  refine ⟨?_, ?_, ?_⟩
  · intro st d e hd he hde
    obtain ⟨x, hfind⟩ : ∃ x, st.departments.find? (fun t => t.id == d.id) = some x :=
      Option.isSome_iff_exists.mp (List.find?_isSome.mpr ⟨d, hd, by simp⟩)
    have herr : delete_department st d.id = .error .storeErr := by
      unfold delete_department
      rw [hfind]
      rw [if_neg (by simp)]
      rw [if_pos]
      rw [Bool.or_eq_true]
      exact Or.inl (List.any_eq_true.mpr ⟨e, he, by simp [hde]⟩)
    refine ⟨herr, ?_⟩
    have hrun : runOp st (.opDeleteDepartment d.id) = st := by
      unfold runOp
      simp only [applyOp]
      rw [herr]
    rw [hrun]
    exact hd
  · intro st emp o hemp ho hoe
    obtain ⟨x, hfind⟩ : ∃ x, st.employees.find? (fun t => t.id == emp.id) = some x :=
      Option.isSome_iff_exists.mp (List.find?_isSome.mpr ⟨emp, hemp, by simp⟩)
    have herr : delete_employee st emp.id = .error .storeErr := by
      unfold delete_employee
      rw [hfind]
      rw [if_neg (by simp)]
      rw [if_pos]
      exact List.any_eq_true.mpr ⟨o, ho, by simp [hoe]⟩
    refine ⟨herr, ?_⟩
    have hrun : runOp st (.opDeleteEmployee emp.id) = st := by
      unfold runOp
      simp only [applyOp]
      rw [herr]
    rw [hrun]
    exact hemp
  · intro st s v hs hv hvs
    obtain ⟨x, hfind⟩ : ∃ x, st.suppliers.find? (fun t => t.id == s.id) = some x :=
      Option.isSome_iff_exists.mp (List.find?_isSome.mpr ⟨s, hs, by simp⟩)
    have herr : delete_supplier st s.id = .error .storeErr := by
      unfold delete_supplier
      rw [hfind]
      rw [if_neg (by simp)]
      rw [if_pos]
      rw [Bool.or_eq_true]
      exact Or.inr (List.any_eq_true.mpr ⟨v, hv, by simp [hvs]⟩)
    refine ⟨herr, ?_⟩
    have hrun : runOp st (.opDeleteSupplier s.id) = st := by
      unfold runOp
      simp only [applyOp]
      rw [herr]
    rw [hrun]
    exact hs

/-- Store holding one department, employee, supplier, purchase order and
invoice, each referencing the previous rows. -/
def richStore : DBState :=
  runOps initState
    [ .opCreateDepartment { name := "Compras", cost_center := "CC-300" },
      .opCreateEmployee { department_id := 1, full_name := "Carla Mendes",
                          email := "carla.mendes@empresa.com", role := "Comprador",
                          salary_cents := 520000, hired_on := "2021-05-12", active := true },
      .opCreateSupplier { name := "Papelaria Norte", tax_id := "12.345.678/0001-00",
                          email := none, phone := none },
      .opCreatePO { supplier_id := 1, requested_by := 1, department_id := 1,
                    status := .APPROVED, total_cents := 125900 },
      .opCreateInvoice { supplier_id := 1, po_id := some 1, invoice_no := "NF-0001",
                         issued_on := "2026-02-01", due_on := "2026-02-20",
                         amount_cents := 125900, status := .OPEN } ]

/-- The department row of `richStore`. -/
def storedDept : Department := { id := 1, name := "Compras", cost_center := "CC-300" }

/-- The employee row of `richStore`. -/
def storedEmp : Employee :=
  { id := 1, department_id := 1, full_name := "Carla Mendes",
    email := "carla.mendes@empresa.com", role := "Comprador",
    salary_cents := 520000, hired_on := "2021-05-12", active := true }

/-- The supplier row of `richStore`. -/
def storedSup : Supplier :=
  { id := 1, name := "Papelaria Norte", tax_id := "12.345.678/0001-00",
    email := none, phone := none }

/-- The purchase-order row of `richStore`. -/
def storedPO : PurchaseOrder :=
  { id := 1, supplier_id := 1, requested_by := 1, department_id := 1,
    status := .APPROVED, total_cents := 125900 }

/-- The invoice row of `richStore`, referencing the purchase order. -/
def storedInv : Invoice :=
  { id := 1, supplier_id := 1, po_id := some 1, invoice_no := "NF-0001",
    issued_on := "2026-02-01", due_on := "2026-02-20",
    amount_cents := 125900, status := .OPEN }

/-- Witness for the amended C5, applied to the referenced department,
employee and supplier of `richStore`. -/
theorem restrict_delete_fails_generic_witness :
    (storedDept ∈ richStore.departments ∧ storedEmp ∈ richStore.employees ∧
     storedEmp.department_id = storedDept.id ∧
     delete_department richStore storedDept.id = .error .storeErr ∧
     storedDept ∈ (runOp richStore (.opDeleteDepartment storedDept.id)).departments) ∧
    (storedPO ∈ richStore.purchase_orders ∧ storedPO.requested_by = storedEmp.id ∧
     delete_employee richStore storedEmp.id = .error .storeErr ∧
     storedEmp ∈ (runOp richStore (.opDeleteEmployee storedEmp.id)).employees) ∧
    (storedSup ∈ richStore.suppliers ∧ storedInv ∈ richStore.invoices ∧
     storedInv.supplier_id = storedSup.id ∧
     delete_supplier richStore storedSup.id = .error .storeErr ∧
     storedSup ∈ (runOp richStore (.opDeleteSupplier storedSup.id)).suppliers) := by
  have h := restrict_delete_fails_generic
  have h1 := h.1 richStore storedDept storedEmp (by decide) (by decide) (by decide)
  have h2 := h.2.1 richStore storedEmp storedPO (by decide) (by decide) (by decide)
  have h3 := h.2.2 richStore storedSup storedInv (by decide) (by decide) (by decide)
  exact ⟨⟨by decide, by decide, by decide, h1.1, h1.2⟩,
         ⟨by decide, by decide, h2.1, h2.2⟩,
         ⟨by decide, by decide, by decide, h3.1, h3.2⟩⟩

/-- C6: deleting a stored purchase order succeeds; the store's
`ON DELETE SET NULL` on `invoices.po_id` detaches every referencing
invoice — the invoice keeps its own record with every other field
unchanged and only `po_id` becoming absent — and nothing is cascaded. -/
theorem delete_po_detaches (st : DBState) (o : PurchaseOrder)
    (ho : o ∈ st.purchase_orders) :
    ∃ st', delete_po st o.id = .ok st' ∧
      st'.invoices = st.invoices.map
        (fun v => if v.po_id == some o.id then { v with po_id := none } else v) ∧
      st'.payments = st.payments ∧
      st'.departments = st.departments ∧
      st'.employees = st.employees ∧
      st'.suppliers = st.suppliers ∧
      (∀ v ∈ st.invoices, v.po_id = some o.id → { v with po_id := none } ∈ st'.invoices) ∧
      (∀ v ∈ st.invoices, v.po_id ≠ some o.id → v ∈ st'.invoices) ∧
      (∀ o' ∈ st'.purchase_orders, o'.id ≠ o.id) := by
  obtain ⟨x, hfind⟩ : ∃ x, st.purchase_orders.find? (fun t => t.id == o.id) = some x :=
    Option.isSome_iff_exists.mp (List.find?_isSome.mpr ⟨o, ho, by simp⟩)
  have hok : delete_po st o.id = .ok
      { st with
        purchase_orders := st.purchase_orders.filter (fun t => t.id != o.id)
        invoices := st.invoices.map
          (fun v => if v.po_id == some o.id then { v with po_id := none } else v) } := by
    unfold delete_po
    rw [hfind]
    rw [if_neg (by simp)]
  refine ⟨_, hok, rfl, rfl, rfl, rfl, rfl, ?_, ?_, ?_⟩
  · intro v hv hvo
    exact List.mem_map.mpr ⟨v, hv, by simp [hvo]⟩
  · intro v hv hvo
    have : (if v.po_id == some o.id then { v with po_id := none } else v) = v := by
      rw [if_neg]
      simp [hvo]
    exact List.mem_map.mpr ⟨v, hv, this⟩
  · intro o' ho'
    have := (List.mem_filter.mp ho').2
    rwa [bne_iff_ne] at this

/-- Witness for C6 at `richStore`, whose invoice references purchase
order 1. -/
theorem delete_po_detaches_witness :
    storedPO ∈ richStore.purchase_orders ∧
    storedInv ∈ richStore.invoices ∧
    storedInv.po_id = some storedPO.id ∧
    (∃ st', delete_po richStore storedPO.id = .ok st' ∧
      st'.invoices = richStore.invoices.map
        (fun v => if v.po_id == some storedPO.id then { v with po_id := none } else v) ∧
      st'.payments = richStore.payments ∧
      st'.departments = richStore.departments ∧
      st'.employees = richStore.employees ∧
      st'.suppliers = richStore.suppliers ∧
      (∀ v ∈ richStore.invoices, v.po_id = some storedPO.id →
        { v with po_id := none } ∈ st'.invoices) ∧
      (∀ v ∈ richStore.invoices, v.po_id ≠ some storedPO.id → v ∈ st'.invoices) ∧
      (∀ o' ∈ st'.purchase_orders, o'.id ≠ storedPO.id)) :=
  ⟨by decide, by decide, by decide,
   delete_po_detaches richStore storedPO (by decide)⟩

/-- C7: failed inserts are atomic — a purchase order whose `supplier_id`
does not resolve fails with the handler's reference error (HTTP 400,
"supplier_id inválido.") and inserts nothing; a second employee with an
email already stored fails with the handler's conflict error (HTTP 400,
"Email já existe ou dados inválidos.") and the first employee remains
intact; and every failing operation leaves the store unchanged (its
transaction rolls back). -/
theorem failed_inserts_atomic :
    (∀ st (p : POCreate), st.suppliers.find? (fun s => s.id == p.supplier_id) = none →
      0 ≤ p.total_cents →
      create_po st p = .error (.http 400 "supplier_id inválido.") ∧
      runOp st (.opCreatePO p) = st) ∧
    (∀ st (p : EmployeeCreate) (e : Employee), e ∈ st.employees → e.email = p.email →
      0 ≤ p.salary_cents →
      (st.departments.find? (fun d => d.id == p.department_id)).isSome →
      create_employee st p = .error (.http 400 "Email já existe ou dados inválidos.") ∧
      runOp st (.opCreateEmployee p) = st ∧
      e ∈ (runOp st (.opCreateEmployee p)).employees) ∧
    (∀ st op err, applyOp st op = .error err → runOp st op = st) := by
  have hrun : ∀ st op err, applyOp st op = .error err → runOp st op = st := by
    intro st op err h
    unfold runOp
    rw [h]
  refine ⟨?_, ?_, hrun⟩
  · intro st p hfind htot
    have herr : create_po st p = .error (.http 400 "supplier_id inválido.") := by
      unfold create_po
      rw [if_neg (by omega : ¬p.total_cents < 0)]
      rw [hfind]
      rw [if_pos (by simp)]
    refine ⟨herr, hrun st _ (.http 400 "supplier_id inválido.") ?_⟩
    simp only [applyOp]
    rw [herr]
    rfl
  · intro st p e he heml hsal hdept
    obtain ⟨x, hfind⟩ : ∃ x, st.departments.find? (fun d => d.id == p.department_id) = some x :=
      Option.isSome_iff_exists.mp hdept
    have herr : create_employee st p = .error (.http 400 "Email já existe ou dados inválidos.") := by
      unfold create_employee
      rw [if_neg (by omega : ¬p.salary_cents < 0)]
      rw [hfind]
      rw [if_neg (by simp)]
      rw [if_pos (List.any_eq_true.mpr ⟨e, he, by simp [heml]⟩)]
    have hr : runOp st (.opCreateEmployee p) = st := by
      apply hrun st _ (.http 400 "Email já existe ou dados inválidos.")
      simp only [applyOp]
      rw [herr]
      rfl
    refine ⟨herr, hr, ?_⟩
    rw [hr]
    exact he

/-- Purchase-order payload whose `supplier_id` 99 resolves to nothing in
`richStore`. -/
def danglingPO : POCreate :=
  { supplier_id := 99, requested_by := 1, department_id := 1,
    status := .DRAFT, total_cents := 5000 }

/-- Employee payload reusing the email already stored in `richStore`. -/
def duplicateEmailEmployee : EmployeeCreate :=
  { department_id := 1, full_name := "Carla Clone",
    email := "carla.mendes@empresa.com", role := "Analista",
    salary_cents := 100000, hired_on := "2024-01-15", active := true }

/-- Witness for C7 at `richStore`: the dangling purchase order is
rejected with the reference error and inserts nothing; the duplicate
email is rejected with the conflict error and the first employee row
survives. -/
theorem failed_inserts_atomic_witness :
    richStore.suppliers.find? (fun s => s.id == danglingPO.supplier_id) = none ∧
    (0 : Int) ≤ danglingPO.total_cents ∧
    (create_po richStore danglingPO = .error (.http 400 "supplier_id inválido.") ∧
     runOp richStore (.opCreatePO danglingPO) = richStore) ∧
    storedEmp ∈ richStore.employees ∧
    storedEmp.email = duplicateEmailEmployee.email ∧
    (create_employee richStore duplicateEmailEmployee
        = .error (.http 400 "Email já existe ou dados inválidos.") ∧
     runOp richStore (.opCreateEmployee duplicateEmailEmployee) = richStore ∧
     storedEmp ∈ (runOp richStore (.opCreateEmployee duplicateEmailEmployee)).employees) ∧
    runOp richStore (.opCreatePO danglingPO) = richStore :=
  ⟨by decide, by decide,
   failed_inserts_atomic.1 richStore danglingPO (by decide) (by decide),
   by decide, by decide,
   failed_inserts_atomic.2.1 richStore duplicateEmailEmployee storedEmp
     (by decide) (by decide) (by decide) (by decide),
   failed_inserts_atomic.2.2 richStore (.opCreatePO danglingPO)
     (.http 400 "supplier_id inválido.") (by rfl)⟩

theorem paginate_length_le {α : Type} (idOf : α → Nat) (l : List α) (limit offset : Nat) :
    (paginate idOf l limit offset).length ≤ limit := by
  unfold paginate
  exact List.length_take_le _ _

theorem paginate_sorted {α : Type} (idOf : α → Nat) (l : List α) (limit offset : Nat) :
    List.Sorted (fun a b => idOf a ≤ idOf b) (paginate idOf l limit offset) := by
  unfold paginate sortById
  have hs : List.Sorted (fun a b => idOf a ≤ idOf b)
      (List.insertionSort (fun a b => idOf a ≤ idOf b) l) :=
    @List.sorted_insertionSort α (fun a b => idOf a ≤ idOf b) inferInstance
      ⟨fun a b => Nat.le_total (idOf a) (idOf b)⟩
      ⟨fun a b c hab hbc => Nat.le_trans hab hbc⟩ l
  exact List.Pairwise.sublist
    ((List.take_sublist _ _).trans (List.drop_sublist _ _)) hs

/-- C8: every list endpoint, under any of its filters, returns at most
`limit` records (and never more than 200, the upper bound the `Query`
validation admits; the declared default is `limit = 50`, `offset = 0`),
ordered by primary key ascending — the `ORDER BY id` makes the order a
function of the stored rows, hence identical across repeated calls with
identical filters. -/
theorem list_ops_bounded_and_sorted (st : DBState) (limit offset : Nat)
    (department_id : Option Nat) (active : Option Bool)
    (po_status : Option String) (inv_status : Option String)
    (supplier_id : Option Nat) (invoice_id : Option Nat)
    (hlo : 1 ≤ limit) (hhi : limit ≤ 200) :
    ((list_departments st limit offset).length ≤ limit ∧
     (list_departments st limit offset).length ≤ 200 ∧
     List.Sorted (fun a b => a.id ≤ b.id) (list_departments st limit offset)) ∧
    ((list_employees st limit offset department_id active).length ≤ limit ∧
     (list_employees st limit offset department_id active).length ≤ 200 ∧
     List.Sorted (fun a b => a.id ≤ b.id) (list_employees st limit offset department_id active)) ∧
    ((list_suppliers st limit offset).length ≤ limit ∧
     (list_suppliers st limit offset).length ≤ 200 ∧
     List.Sorted (fun a b => a.id ≤ b.id) (list_suppliers st limit offset)) ∧
    ((list_pos st limit offset po_status).length ≤ limit ∧
     (list_pos st limit offset po_status).length ≤ 200 ∧
     List.Sorted (fun a b => a.id ≤ b.id) (list_pos st limit offset po_status)) ∧
    ((list_invoices st limit offset inv_status supplier_id).length ≤ limit ∧
     (list_invoices st limit offset inv_status supplier_id).length ≤ 200 ∧
     List.Sorted (fun a b => a.id ≤ b.id) (list_invoices st limit offset inv_status supplier_id)) ∧
    ((list_payments st limit offset invoice_id).length ≤ limit ∧
     (list_payments st limit offset invoice_id).length ≤ 200 ∧
     List.Sorted (fun a b => a.id ≤ b.id) (list_payments st limit offset invoice_id)) := by
  refine ⟨?_, ?_, ?_, ?_, ?_, ?_⟩ <;>
    simp only [list_departments, list_employees, list_suppliers, list_pos,
               list_invoices, list_payments] <;>
    exact ⟨paginate_length_le _ _ _ _,
           le_trans (paginate_length_le _ _ _ _) hhi,
           paginate_sorted _ _ _ _⟩

/-- Witness for C8 at `richStore` with the default `limit = 50`,
`offset = 0` and a department filter. -/
theorem list_ops_bounded_and_sorted_witness :
    1 ≤ 50 ∧ 50 ≤ 200 ∧
    ((list_departments richStore 50 0).length ≤ 50 ∧
     (list_departments richStore 50 0).length ≤ 200 ∧
     List.Sorted (fun a b => a.id ≤ b.id) (list_departments richStore 50 0)) ∧
    ((list_employees richStore 50 0 (some 1) none).length ≤ 50 ∧
     (list_employees richStore 50 0 (some 1) none).length ≤ 200 ∧
     List.Sorted (fun a b => a.id ≤ b.id) (list_employees richStore 50 0 (some 1) none)) ∧
    ((list_invoices richStore 50 0 (some "OPEN") (some 1)).length ≤ 50 ∧
     (list_invoices richStore 50 0 (some "OPEN") (some 1)).length ≤ 200 ∧
     List.Sorted (fun a b => a.id ≤ b.id) (list_invoices richStore 50 0 (some "OPEN") (some 1))) := by
  have h := list_ops_bounded_and_sorted richStore 50 0 (some 1) none none
    (some "OPEN") (some 1) none (by decide) (by decide)
  exact ⟨by decide, by decide, h.1, h.2.1, h.2.2.2.2.1⟩

/-- C9 is refuted on the code: the invoice and payment tools forward
their date strings exactly as given — a datetime-bearing `issued_on` or
`paid_on` keeps its time component — even though the normalization
helper, had it been applied, would truncate it to the calendar date. -/
theorem mcp_normalization_counterexample :
    (mcp_create_invoice_body 1 "NF-1" "2026-02-01T10:00:00" "2026-03-01"
        100000 .OPEN none).issued_on = "2026-02-01T10:00:00" ∧
    (mcp_create_invoice_body 1 "NF-1" "2026-02-01" "2026-03-01T23:59:00"
        100000 .OPEN none).due_on = "2026-03-01T23:59:00" ∧
    (mcp_create_payment_body 1 "2026-02-06T08:30:00" 349900 .PIX none).paid_on
      = "2026-02-06T08:30:00" ∧
    normalize_hired_on "2026-02-01T10:00:00" = "2026-02-01" ∧
    "2026-02-01T10:00:00" ≠ "2026-02-01" :=
  ⟨by decide, by decide, by decide, by decide, by decide⟩

/-- C9 (amended): only the `create_employee` tool normalizes a date — its
`hired_on` goes through `_normalize_hired_on`, which truncates a parseable
datetime string to its calendar date and passes anything malformed through
unchanged — while the `create_invoice` (`issued_on`, `due_on`) and
`create_payment` (`paid_on`) tools forward their date strings verbatim,
with no normalization at all. -/
theorem mcp_normalization_amended :
    (∀ did fn em ro sal ho act,
      (mcp_create_employee_body did fn em ro sal ho act).hired_on
        = normalize_hired_on ho) ∧
    (∀ sid ino iso duo amt stt pid,
      (mcp_create_invoice_body sid ino iso duo amt stt pid).issued_on = iso ∧
      (mcp_create_invoice_body sid ino iso duo amt stt pid).due_on = duo) ∧
    (∀ iid po amt m r,
      (mcp_create_payment_body iid po amt m r).paid_on = po) ∧
    (∀ value d, pyStrip value ≠ "" →
      ((pyStrip value).data.contains 'T') = true →
      parseIsoDatetime (pyReplaceZ (pyStrip value)) = some d →
      normalize_hired_on value = d.isoformat) ∧
    (∀ value, pyStrip value ≠ "" →
      ((pyStrip value).data.contains 'T') = true →
      parseIsoDatetime (pyReplaceZ (pyStrip value)) = none →
      normalize_hired_on value = value) := by
  refine ⟨fun _ _ _ _ _ _ _ => rfl,
          fun _ _ _ _ _ _ _ => ⟨rfl, rfl⟩,
          fun _ _ _ _ _ => rfl, ?_, ?_⟩
  · intro value d h1 h2 h3
    unfold normalize_hired_on
    rw [if_neg h1, if_pos h2, h3]
  · intro value h1 h2 h3
    unfold normalize_hired_on
    rw [if_neg h1, if_pos h2, h3]

/-- Witness for the amended C9: the employee tool truncates
"2026-02-01T10:00:00" to "2026-02-01", and the malformed
"2026-99-99T10:00:00" passes through unchanged (fail-soft). -/
theorem mcp_normalization_amended_witness :
    pyStrip "2026-02-01T10:00:00" ≠ "" ∧
    ((pyStrip "2026-02-01T10:00:00").data.contains 'T') = true ∧
    parseIsoDatetime (pyReplaceZ (pyStrip "2026-02-01T10:00:00"))
      = some { year := 2026, month := 2, day := 1 } ∧
    normalize_hired_on "2026-02-01T10:00:00"
      = (PyDate.mk 2026 2 1).isoformat ∧
    (mcp_create_employee_body 1 "Ana" "ana@x.com" "Analista" 1000
        "2026-02-01T10:00:00" true).hired_on = normalize_hired_on "2026-02-01T10:00:00" ∧
    pyStrip "2026-99-99T10:00:00" ≠ "" ∧
    parseIsoDatetime (pyReplaceZ (pyStrip "2026-99-99T10:00:00")) = none ∧
    normalize_hired_on "2026-99-99T10:00:00" = "2026-99-99T10:00:00" :=
  ⟨by decide, by decide, by decide,
   mcp_normalization_amended.2.2.2.1 "2026-02-01T10:00:00"
     { year := 2026, month := 2, day := 1 } (by decide) (by decide) (by decide),
   mcp_normalization_amended.1 1 "Ana" "ana@x.com" "Analista" 1000
     "2026-02-01T10:00:00" true,
   by decide, by decide,
   mcp_normalization_amended.2.2.2.2 "2026-99-99T10:00:00"
     (by decide) (by decide) (by decide)⟩

/-- C10: the `list_employees` tool adds the `department_id` filter to the
forwarded params only under a Python truthiness check, so calling it with
`department_id = 0` drops the filter entirely and the API serves the
unfiltered employee list; any non-zero `department_id` is forwarded as an
exact-match filter. -/
theorem list_employees_tool_drops_zero_department (st : DBState)
    (limit offset : Nat) (d : Nat) (hd : d ≠ 0) :
    mcp_list_employees_forwarded_filter (some 0) = none ∧
    mcp_list_employees st limit offset (some 0)
      = list_employees st limit offset none none ∧
    mcp_list_employees st limit offset none
      = list_employees st limit offset none none ∧
    mcp_list_employees_forwarded_filter (some d) = some d ∧
    mcp_list_employees st limit offset (some d)
      = list_employees st limit offset (some d) none := by
  have hfwd : mcp_list_employees_forwarded_filter (some d) = some d := by
    unfold mcp_list_employees_forwarded_filter pyTruthyNat
    rw [if_pos]
    simpa using hd
  refine ⟨rfl, rfl, rfl, hfwd, ?_⟩
  unfold mcp_list_employees
  rw [hfwd]

/-- Witness for C10 at `richStore`: with `department_id = 0` the tool
returns the full employee list (here the employee of department 1), not
the empty set an exact department-0 filter would produce. -/
theorem list_employees_tool_drops_zero_department_witness :
    (7 : Nat) ≠ 0 ∧
    (mcp_list_employees_forwarded_filter (some 0) = none ∧
     mcp_list_employees richStore 50 0 (some 0)
       = list_employees richStore 50 0 none none ∧
     mcp_list_employees richStore 50 0 none
       = list_employees richStore 50 0 none none ∧
     mcp_list_employees_forwarded_filter (some 7) = some 7 ∧
     mcp_list_employees richStore 50 0 (some 7)
       = list_employees richStore 50 0 (some 7) none) ∧
    mcp_list_employees richStore 50 0 (some 0) = [storedEmp] ∧
    list_employees richStore 50 0 (some 0) none = [] :=
  ⟨by decide,
   list_employees_tool_drops_zero_department richStore 50 0 7 (by decide),
   by decide, by decide⟩
